import Mathlib

/-!
# vulkan_gbm: the Vulkan backend of GBM (`gbm_vulkan.c`)

A shallow embedding of the format/modifier capability negotiation and of the
buffer-object lifecycle of `gbm_vulkan.c`, with theorems about them.

Conventions of the embedding:

* C unsigned integers (`uint32_t`, `uint64_t`, `size_t`, Vulkan flag words and
  handles) are `Nat`; C `int` values are `Int`.  Where a conversion can wrap it
  is written out (`size_t_of_int`, `uint32_of_uint64`, `int_of_uint32`).
* A C array together with its element count is a `List`; the count is the
  length of the list.
* A Vulkan handle is a `Nat`, `VK_NULL_HANDLE` is `0`.
* The Vulkan driver is an external collaborator.  Its answers are the fields of
  `VkPhysicalDevice` and `VkDevice`; every call that creates, releases or
  queries a device resource is recorded, in program order, in a `List Call`.
* A dereference of `NULL`, a failed `assert` and an array index outside its array
  stop the program; they are the values of `Fault`.
-/

namespace GbmVulkan

/-! ## Constants of the external headers (`gbm.h`, `vulkan_core.h`, `drm_fourcc.h`) -/

/-- Flag `GBM_BO_USE_RENDERING` of `gbm.h`, `1 << 2`. -/
def GBM_BO_USE_RENDERING : Nat := 4
/-- Flag `GBM_BO_USE_WRITE` of `gbm.h`, `1 << 3`. -/
def GBM_BO_USE_WRITE : Nat := 8
/-- Flag `GBM_BO_USE_PROTECTED` of `gbm.h`, `1 << 5`. -/
def GBM_BO_USE_PROTECTED : Nat := 32

def VK_IMAGE_TYPE_2D : Nat := 1
def VK_IMAGE_TILING_DRM_FORMAT_MODIFIER_EXT : Nat := 1000158000
def VK_IMAGE_USAGE_TRANSFER_SRC_BIT : Nat := 0x1
def VK_IMAGE_USAGE_SAMPLED_BIT : Nat := 0x4
def VK_IMAGE_USAGE_COLOR_ATTACHMENT_BIT : Nat := 0x10
def VK_IMAGE_CREATE_MUTABLE_FORMAT_BIT : Nat := 0x8
def VK_FORMAT_FEATURE_SAMPLED_IMAGE_BIT : Nat := 0x1
def VK_FORMAT_FEATURE_COLOR_ATTACHMENT_BIT : Nat := 0x80
def VK_FORMAT_FEATURE_COLOR_ATTACHMENT_BLEND_BIT : Nat := 0x100
def VK_EXTERNAL_MEMORY_HANDLE_TYPE_DMA_BUF_BIT_EXT : Nat := 0x200
def VK_EXTERNAL_MEMORY_FEATURE_IMPORTABLE_BIT : Nat := 0x4
def VK_MEMORY_PROPERTY_DEVICE_LOCAL_BIT : Nat := 0x1
def VK_IMAGE_ASPECT_MEMORY_PLANE_0_BIT_EXT : Nat := 0x80
def VK_IMAGE_ASPECT_MEMORY_PLANE_1_BIT_EXT : Nat := 0x100
def VK_IMAGE_ASPECT_MEMORY_PLANE_2_BIT_EXT : Nat := 0x200
def VK_IMAGE_ASPECT_MEMORY_PLANE_3_BIT_EXT : Nat := 0x400
def DRM_FORMAT_MOD_LINEAR : Nat := 0
def VK_EXT_PHYSICAL_DEVICE_DRM_EXTENSION_NAME : String := "VK_EXT_physical_device_drm"

/-! ## Integer conversions -/

/-- The cast `(size_t)plane` of an `int` on an LP64 target. -/
def size_t_of_int (i : Int) : Nat := (i % 2 ^ 64).toNat

/-- The conversion of a 64-bit `VkDeviceSize` to the `uint32_t` an accessor returns. -/
def uint32_of_uint64 (v : Nat) : Nat := v % 2 ^ 32

/-- The conversion of a `uint32_t` to `int` (two's complement). -/
def int_of_uint32 (v : Nat) : Int :=
  if v % 2 ^ 32 < 2 ^ 31 then ((v % 2 ^ 32 : Nat) : Int) else ((v % 2 ^ 32 : Nat) : Int) - 2 ^ 32

/-! ## Data model -/

structure VkExtent2D where
  width : Nat
  height : Nat
  deriving DecidableEq, Repr

structure VkDrmFormatModifierPropertiesEXT where
  drmFormatModifier : Nat
  drmFormatModifierPlaneCount : Nat
  drmFormatModifierTilingFeatures : Nat
  deriving DecidableEq, Repr

/-- The `struct vulkan_format`; `vk_srgb` is `0` when there is no sRGB version. -/
structure vulkan_format where
  drm : Nat
  vk : Nat
  vk_srgb : Nat
  deriving DecidableEq, Repr

structure vulkan_format_modifier_props where
  props : VkDrmFormatModifierPropertiesEXT
  max_extent : VkExtent2D
  deriving DecidableEq, Repr

/-- The `struct vulkan_format_props`; `render_mod_count` and `texture_mod_count`
are the lengths of the two lists. -/
structure vulkan_format_props where
  format : vulkan_format
  render_mods : List vulkan_format_modifier_props
  texture_mods : List vulkan_format_modifier_props
  deriving DecidableEq, Repr

/-- The `VkImageCreateInfo` that `gbm_vulkan_bo_create` builds, with its `pNext`
chain flattened: `handleTypes` is the field of `VkExternalMemoryImageCreateInfo`
and `drmFormatModifiers` the array of `VkImageDrmFormatModifierListCreateInfoEXT`. -/
structure VkImageCreateInfo where
  imageType : Nat
  width : Nat
  height : Nat
  depth : Nat
  mipLevels : Nat
  arrayLayers : Nat
  format : Nat
  tiling : Nat
  usage : Nat
  handleTypes : Nat
  drmFormatModifiers : List Nat
  deriving DecidableEq, Repr

structure VkMemoryRequirements where
  size : Nat
  memoryTypeBits : Nat
  deriving DecidableEq, Repr

/-- The `VkMemoryAllocateInfo` with the `handleTypes` of its chained
`VkExportMemoryAllocateInfo`. -/
structure VkMemoryAllocateInfo where
  allocationSize : Nat
  memoryTypeIndex : Int
  handleTypes : Nat
  deriving DecidableEq, Repr

structure VkSubresourceLayout where
  offset : Nat
  rowPitch : Nat
  deriving DecidableEq, Repr

/-- The query that `query_modifier_usage_support` sends to
`vkGetPhysicalDeviceImageFormatProperties2`, with its `pNext` chain flattened. -/
structure VkPhysicalDeviceImageFormatInfo2 where
  format : Nat
  usage : Nat
  flags : Nat
  tiling : Nat
  handleType : Nat
  drmFormatModifier : Nat
  viewFormats : List Nat
  deriving DecidableEq, Repr

/-- What a successful `vkGetPhysicalDeviceImageFormatProperties2` reports and the code reads. -/
structure VkImageFormatProperties2 where
  externalMemoryFeatures : Nat
  maxExtent : VkExtent2D
  deriving DecidableEq, Repr

/-- The answers of one physical device.  `extensionCount` and `extensionProperties`
are the two calls of `vkEnumerateDeviceExtensionProperties` (`none`: the call does not
return `VK_SUCCESS`), the four node numbers are `VkPhysicalDeviceDrmPropertiesEXT`,
`memoryTypes` lists the `propertyFlags` of the `memoryTypeCount` memory types,
`drmFormatModifierProperties` is the modifier list of `vkGetPhysicalDeviceFormatProperties2`
for a `VkFormat`, and `imageFormatProperties2` is
`vkGetPhysicalDeviceImageFormatProperties2` (`none`: not `VK_SUCCESS`). -/
structure VkPhysicalDevice where
  extensionCount : Option Nat
  extensionProperties : Option (List String)
  primaryMajor : Int
  primaryMinor : Int
  renderMajor : Int
  renderMinor : Int
  memoryTypes : List Nat
  drmFormatModifierProperties : Nat → List VkDrmFormatModifierPropertiesEXT
  imageFormatProperties2 : VkPhysicalDeviceImageFormatInfo2 → Option VkImageFormatProperties2

/-- The answers of the logical device.  A creation call answers `some handle` when it
returns `VK_SUCCESS` and `none` otherwise, in which case the output handle keeps the
zero that `calloc` gave it. -/
structure VkDevice where
  vkCreateImage : VkImageCreateInfo → Option Nat
  vkGetImageMemoryRequirements : Nat → VkMemoryRequirements
  vkAllocateMemory : VkMemoryAllocateInfo → Option Nat
  vkBindImageMemory : Nat → Nat → Nat → Bool
  vkGetImageDrmFormatModifierPropertiesEXT : Nat → Option Nat
  vkGetImageSubresourceLayout : Nat → Nat → VkSubresourceLayout
  vkGetMemoryFdKHR : Nat → Option Int

/-- The `struct gbm_vulkan_device`: the selected physical device, the logical device
and the capability table (`format_props` with `format_prop_count` its length). -/
structure gbm_vulkan_device where
  physical_device : VkPhysicalDevice
  device : VkDevice
  format_props : List vulkan_format_props

/-- The `struct gbm_vulkan_bo` with the `width`, `height` and `format` of its base. -/
structure gbm_vulkan_bo where
  width : Nat
  height : Nat
  format : Nat
  image : Nat
  memory : Nat
  modifier : Nat
  plane_cnt : Nat
  deriving DecidableEq, Repr

/-- The calls that allocate, release or query a resource, as they appear in a run. -/
inductive Call where
  | calloc_bo (ok : Bool)
  | free_bo
  | vkCreateImage (info : VkImageCreateInfo) (result : Option Nat)
  | vkDestroyImage (image : Nat)
  | vkGetImageMemoryRequirements (image : Nat)
  | vkGetPhysicalDeviceMemoryProperties
  | vkAllocateMemory (info : VkMemoryAllocateInfo) (result : Option Nat)
  | vkFreeMemory (memory : Nat)
  | vkBindImageMemory (image memory offset : Nat) (ok : Bool)
  | vkGetImageDrmFormatModifierPropertiesEXT (image : Nat) (result : Option Nat)
  | vkGetImageSubresourceLayout (image aspectMask : Nat)
  | vkGetMemoryFdKHR (memory : Nat) (result : Option Int)
  deriving DecidableEq, Repr

/-- The ways a run stops without returning: a dereference of `NULL`, a failed
`assert`, an array index outside the array. -/
inductive Fault where
  | null_deref
  | assert_failed
  | out_of_bounds
  deriving DecidableEq, Repr

/-! ## Capability lookups -/

/-- The loop of `vulkan_format_props_from_drm`: the first table entry whose
`format.drm` is `drm_fmt`, or `none` for `NULL`. -/
def vulkan_format_props_from_drm (dev : gbm_vulkan_device) (drm_fmt : Nat) :
    Option vulkan_format_props :=
  dev.format_props.find? (fun p => p.format.drm == drm_fmt)

/-- The two loops of `vulkan_format_props_find_modifier` on a non-`NULL` `props`:
the first entry of the list of the usage class whose modifier is `mod`. -/
def vulkan_format_props_find_modifier (props : vulkan_format_props) (mod : Nat)
    (render : Bool) : Option vulkan_format_modifier_props :=
  if render then
    props.render_mods.find? (fun p => p.props.drmFormatModifier == mod)
  else
    props.texture_mods.find? (fun p => p.props.drmFormatModifier == mod)

/-- The loop of `vulkan_find_mem_type` from index `i` on, over the `propertyFlags` of
the memory types from `i` on.  The mask `1 << i` is the 32-bit word with bit `i`. -/
def vulkan_find_mem_type_loop (flags req_bits : Nat) : List Nat → Nat → Int
  | [], _ => -1
  | propertyFlags :: rest, i =>
    if req_bits &&& ((1 <<< i) % 2 ^ 32) ≠ 0 then
      if propertyFlags &&& flags = flags then (i : Int)
      else vulkan_find_mem_type_loop flags req_bits rest (i + 1)
    else vulkan_find_mem_type_loop flags req_bits rest (i + 1)

def vulkan_find_mem_type (phdev : VkPhysicalDevice) (flags req_bits : Nat) : Int :=
  vulkan_find_mem_type_loop flags req_bits phdev.memoryTypes 0

/-! ## Buffer objects -/

/-- The calls of `gbm_vulkan_bo_destroy`: memory, then image, each when present,
then the object itself. -/
def gbm_vulkan_bo_destroy (bo : gbm_vulkan_bo) : List Call :=
  (if bo.memory ≠ 0 then [Call.vkFreeMemory bo.memory] else []) ++
  (if bo.image ≠ 0 then [Call.vkDestroyImage bo.image] else []) ++
  [Call.free_bo]

/-- The filtering loop of `gbm_vulkan_bo_create` over the remaining candidates;
`filtered_mods` holds the `filtered_mods_count` modifiers written so far. -/
def bo_create_filter_loop (format_props : vulkan_format_props) (render : Bool)
    (width height : Nat) : List Nat → List Nat → List Nat
  | [], filtered_mods => filtered_mods
  | m :: rest, filtered_mods =>
    match vulkan_format_props_find_modifier format_props m render with
    | none => bo_create_filter_loop format_props render width height rest filtered_mods
    | some mod_props =>
      if mod_props.max_extent.width < width ∨ mod_props.max_extent.height < height then
        bo_create_filter_loop format_props render width height rest filtered_mods
      else
        bo_create_filter_loop format_props render width height rest
          (filtered_mods ++ [mod_props.props.drmFormatModifier])

/-- The `img_create` structure of `gbm_vulkan_bo_create`. -/
def bo_create_img_create (format_props : vulkan_format_props) (width height usage : Nat)
    (modifiers : List Nat) : VkImageCreateInfo :=
  { imageType := VK_IMAGE_TYPE_2D
    width := width
    height := height
    depth := 1
    mipLevels := 1
    arrayLayers := 1
    format := format_props.format.vk
    tiling := VK_IMAGE_TILING_DRM_FORMAT_MODIFIER_EXT
    usage := VK_IMAGE_USAGE_SAMPLED_BIT
    handleTypes := VK_EXTERNAL_MEMORY_HANDLE_TYPE_DMA_BUF_BIT_EXT
    drmFormatModifiers :=
      bo_create_filter_loop format_props (usage &&& GBM_BO_USE_RENDERING != 0)
        width height modifiers [] }

/-- The function `gbm_vulkan_bo_create`.  `format_canonicalize` is the callback
`core->v0.format_canonicalize` of the host and `calloc_ok` tells whether `calloc`
gives the object.  The result is `none` for `NULL`. -/
def gbm_vulkan_bo_create (format_canonicalize : Nat → Nat) (calloc_ok : Bool)
    (vulkan : gbm_vulkan_device) (width height format usage : Nat)
    (modifiers : List Nat) : Except Fault (Option gbm_vulkan_bo) × List Call :=
  let format := format_canonicalize format
  if usage &&& (GBM_BO_USE_PROTECTED ||| GBM_BO_USE_WRITE) ≠ 0 then
    (.ok none, [])
  else if calloc_ok = false then
    (.ok none, [Call.calloc_bo false])
  else
    let bo : gbm_vulkan_bo :=
      { width := width, height := height, format := format,
        image := 0, memory := 0, modifier := 0, plane_cnt := 0 }
    let t0 := [Call.calloc_bo true]
    match vulkan_format_props_from_drm vulkan format with
    | none => (.ok none, t0 ++ gbm_vulkan_bo_destroy bo)
    | some format_props =>
      let img_create := bo_create_img_create format_props width height usage modifiers
      match vulkan.device.vkCreateImage img_create with
      | none =>
        (.ok none, t0 ++ [Call.vkCreateImage img_create none] ++ gbm_vulkan_bo_destroy bo)
      | some image =>
        let bo := { bo with image := image }
        let t1 := t0 ++ [Call.vkCreateImage img_create (some image)]
        let mem_reqs := vulkan.device.vkGetImageMemoryRequirements bo.image
        let mem_type_index :=
          vulkan_find_mem_type vulkan.physical_device VK_MEMORY_PROPERTY_DEVICE_LOCAL_BIT
            mem_reqs.memoryTypeBits
        let t2 := t1 ++ [Call.vkGetImageMemoryRequirements bo.image,
          Call.vkGetPhysicalDeviceMemoryProperties]
        if mem_type_index = -1 then
          (.ok none, t2 ++ gbm_vulkan_bo_destroy bo)
        else
          let mem_alloc : VkMemoryAllocateInfo :=
            { allocationSize := mem_reqs.size
              memoryTypeIndex := mem_type_index
              handleTypes := VK_EXTERNAL_MEMORY_HANDLE_TYPE_DMA_BUF_BIT_EXT }
          match vulkan.device.vkAllocateMemory mem_alloc with
          | none =>
            (.ok none, t2 ++ [Call.vkAllocateMemory mem_alloc none] ++ gbm_vulkan_bo_destroy bo)
          | some memory =>
            let bo := { bo with memory := memory }
            let t3 := t2 ++ [Call.vkAllocateMemory mem_alloc (some memory)]
            if vulkan.device.vkBindImageMemory bo.image bo.memory 0 = false then
              (.ok none, t3 ++ [Call.vkBindImageMemory bo.image bo.memory 0 false]
                ++ gbm_vulkan_bo_destroy bo)
            else
              let t4 := t3 ++ [Call.vkBindImageMemory bo.image bo.memory 0 true]
              match vulkan.device.vkGetImageDrmFormatModifierPropertiesEXT bo.image with
              | none =>
                (.ok none, t4 ++ [Call.vkGetImageDrmFormatModifierPropertiesEXT bo.image none]
                  ++ gbm_vulkan_bo_destroy bo)
              | some drmFormatModifier =>
                let t5 := t4 ++
                  [Call.vkGetImageDrmFormatModifierPropertiesEXT bo.image (some drmFormatModifier)]
                let bo := { bo with modifier := drmFormatModifier }
                match vulkan_format_props_find_modifier format_props drmFormatModifier
                    (usage &&& GBM_BO_USE_RENDERING != 0) with
                | none => (.error Fault.assert_failed, t5)
                | some mod_props =>
                  (.ok (some { bo with plane_cnt := mod_props.props.drmFormatModifierPlaneCount }),
                    t5)

/-! ## Accessors of a buffer object -/

/-- The array `plane_aspects` of `gbm_vulkan_bo_get_offset` and `gbm_vulkan_bo_get_stride`. -/
def plane_aspects : List Nat :=
  [VK_IMAGE_ASPECT_MEMORY_PLANE_0_BIT_EXT, VK_IMAGE_ASPECT_MEMORY_PLANE_1_BIT_EXT,
   VK_IMAGE_ASPECT_MEMORY_PLANE_2_BIT_EXT, VK_IMAGE_ASPECT_MEMORY_PLANE_3_BIT_EXT]

def gbm_vulkan_bo_get_fd (dev : gbm_vulkan_device) (bo : gbm_vulkan_bo) : Int × List Call :=
  if bo.image = 0 then (-1, [])
  else
    match dev.device.vkGetMemoryFdKHR bo.memory with
    | none => (-1, [Call.vkGetMemoryFdKHR bo.memory none])
    | some fd => (fd, [Call.vkGetMemoryFdKHR bo.memory (some fd)])

def gbm_vulkan_bo_get_plane_fd (dev : gbm_vulkan_device) (bo : gbm_vulkan_bo) (plane : Int) :
    Int × List Call :=
  if size_t_of_int plane ≥ bo.plane_cnt then (-1, [])
  else gbm_vulkan_bo_get_fd dev bo

def gbm_vulkan_bo_get_modifier (bo : gbm_vulkan_bo) : Nat :=
  if bo.image = 0 then DRM_FORMAT_MOD_LINEAR else bo.modifier

/-- The function `gbm_vulkan_bo_get_handle_for_plane`.  The `union gbm_bo_handle` is
the 64-bit word its members share, and `bo_ptr` is the address `_bo` of the object. -/
def gbm_vulkan_bo_get_handle_for_plane (bo_ptr : Nat) (bo : gbm_vulkan_bo) (plane : Int) : Nat :=
  if size_t_of_int plane ≥ bo.plane_cnt then 0
  else bo_ptr

def gbm_vulkan_bo_get_offset (dev : gbm_vulkan_device) (bo : gbm_vulkan_bo) (plane : Int) :
    Except Fault Nat × List Call :=
  if size_t_of_int plane ≥ bo.plane_cnt then (.ok 0, [])
  else if ¬ bo.plane_cnt ≤ plane_aspects.length then (.error Fault.assert_failed, [])
  else
    match plane_aspects[plane.toNat]? with
    | none => (.error Fault.out_of_bounds, [])
    | some aspectMask =>
      let subres_layout := dev.device.vkGetImageSubresourceLayout bo.image aspectMask
      (.ok (uint32_of_uint64 subres_layout.offset),
        [Call.vkGetImageSubresourceLayout bo.image aspectMask])

def gbm_vulkan_bo_get_stride (dev : gbm_vulkan_device) (bo : gbm_vulkan_bo) (plane : Int) :
    Except Fault Nat × List Call :=
  if size_t_of_int plane ≥ bo.plane_cnt then (.ok 0, [])
  else if ¬ bo.plane_cnt ≤ plane_aspects.length then (.error Fault.assert_failed, [])
  else
    match plane_aspects[plane.toNat]? with
    | none => (.error Fault.out_of_bounds, [])
    | some aspectMask =>
      let subres_layout := dev.device.vkGetImageSubresourceLayout bo.image aspectMask
      (.ok (uint32_of_uint64 subres_layout.rowPitch),
        [Call.vkGetImageSubresourceLayout bo.image aspectMask])

/-! ## Query callbacks of the device -/

/-- The function `vulkan_format_props_find_modifier` on a pointer that may be `NULL`
(`none`): both branches start by reading a count through `props`. -/
def vulkan_format_props_find_modifier_ptr (props : Option vulkan_format_props) (mod : Nat)
    (render : Bool) : Except Fault (Option vulkan_format_modifier_props) :=
  match props with
  | none => .error Fault.null_deref
  | some p => .ok (vulkan_format_props_find_modifier p mod render)

def gbm_vulkan_get_format_modifier_plane_count (dev : gbm_vulkan_device)
    (format modifier : Nat) : Except Fault Int :=
  let format_props := vulkan_format_props_from_drm dev format
  match vulkan_format_props_find_modifier_ptr format_props modifier false with
  | .error f => .error f
  | .ok none => .ok 0
  | .ok (some mod_props) => .ok (int_of_uint32 mod_props.props.drmFormatModifierPlaneCount)

def gbm_vulkan_is_format_supported (dev : gbm_vulkan_device) (format usage : Nat) : Int :=
  if usage &&& (GBM_BO_USE_WRITE ||| GBM_BO_USE_PROTECTED) ≠ 0 then 0
  else
    match vulkan_format_props_from_drm dev format with
    | none => 0
    | some _ => 1

/-! ## Selection of the physical device -/

def check_extension : List String → String → Bool
  | [], _ => false
  | extensionName :: rest, name =>
    if extensionName = name then true else check_extension rest name

/-- The loop of `vulkan_select_physical_device` over the devices from index `idx` on.
`makedev` is the macro of `sys/sysmacros.h` applied to the node numbers a device
reports and `st_rdev` the device number of the DRM file descriptor. -/
def vulkan_select_physical_device_loop (makedev : Int → Int → Nat) (st_rdev : Nat) :
    List VkPhysicalDevice → Nat → Int → Int
  | [], _, chosen => chosen
  | phdev :: rest, idx, chosen =>
    match phdev.extensionCount with
    | none => vulkan_select_physical_device_loop makedev st_rdev rest (idx + 1) chosen
    | some avail_extc =>
      if avail_extc = 0 then
        vulkan_select_physical_device_loop makedev st_rdev rest (idx + 1) chosen
      else
        match phdev.extensionProperties with
        | none => vulkan_select_physical_device_loop makedev st_rdev rest (idx + 1) chosen
        | some avail_ext_props =>
          if check_extension avail_ext_props VK_EXT_PHYSICAL_DEVICE_DRM_EXTENSION_NAME = false then
            vulkan_select_physical_device_loop makedev st_rdev rest (idx + 1) chosen
          else if chosen ≠ -1 then
            vulkan_select_physical_device_loop makedev st_rdev rest (idx + 1) chosen
          else if makedev phdev.primaryMajor phdev.primaryMinor = st_rdev
              ∨ makedev phdev.renderMajor phdev.renderMinor = st_rdev then
            vulkan_select_physical_device_loop makedev st_rdev rest (idx + 1) (int_of_uint32 idx)
          else
            vulkan_select_physical_device_loop makedev st_rdev rest (idx + 1) chosen

/-- The function `vulkan_select_physical_device`.  `fstat_rdev` is the `st_rdev` that
`fstat` gives for the file descriptor (`none`: `fstat` fails) and `phdevs` the devices
that `vkEnumeratePhysicalDevices` lists.  The result is `none` for `VK_NULL_HANDLE`. -/
def vulkan_select_physical_device (makedev : Int → Int → Nat) (fstat_rdev : Option Nat)
    (phdevs : List VkPhysicalDevice) : Except Fault (Option VkPhysicalDevice) :=
  match fstat_rdev with
  | none => .ok none
  | some st_rdev =>
    if phdevs.length = 0 then .ok none
    else
      let chosen := vulkan_select_physical_device_loop makedev st_rdev phdevs 0 (-1)
      if chosen ≠ -1 then
        if chosen < 0 then .error Fault.out_of_bounds
        else
          match phdevs[chosen.toNat]? with
          | none => .error Fault.out_of_bounds
          | some phdev => .ok (some phdev)
      else .ok none

/-! ## Probing of the modifiers of a format -/

def vulkan_render_usage : Nat :=
  VK_IMAGE_USAGE_COLOR_ATTACHMENT_BIT ||| VK_IMAGE_USAGE_SAMPLED_BIT |||
    VK_IMAGE_USAGE_TRANSFER_SRC_BIT

def vulkan_dma_tex_usage : Nat :=
  VK_IMAGE_USAGE_SAMPLED_BIT ||| VK_IMAGE_USAGE_TRANSFER_SRC_BIT

def render_features : Nat :=
  VK_FORMAT_FEATURE_COLOR_ATTACHMENT_BIT ||| VK_FORMAT_FEATURE_COLOR_ATTACHMENT_BLEND_BIT |||
    VK_FORMAT_FEATURE_SAMPLED_IMAGE_BIT

def dma_tex_features : Nat := VK_FORMAT_FEATURE_SAMPLED_IMAGE_BIT

/-- The function `query_modifier_usage_support`: `some out` when it returns `true`
having written `out`, `none` when it returns `false`. -/
def query_modifier_usage_support (phdev : VkPhysicalDevice)
    (vk_format vk_format_variant usage : Nat) (m : VkDrmFormatModifierPropertiesEXT) :
    Option vulkan_format_modifier_props :=
  let fmti : VkPhysicalDeviceImageFormatInfo2 :=
    { format := vk_format
      usage := usage
      flags := if vk_format_variant ≠ 0 then VK_IMAGE_CREATE_MUTABLE_FORMAT_BIT else 0
      tiling := VK_IMAGE_TILING_DRM_FORMAT_MODIFIER_EXT
      handleType := VK_EXTERNAL_MEMORY_HANDLE_TYPE_DMA_BUF_BIT_EXT
      drmFormatModifier := m.drmFormatModifier
      viewFormats :=
        if vk_format_variant ≠ 0 then [vk_format, vk_format_variant] else [vk_format] }
  match phdev.imageFormatProperties2 fmti with
  | none => none
  | some ifmtp =>
    if ifmtp.externalMemoryFeatures &&& VK_EXTERNAL_MEMORY_FEATURE_IMPORTABLE_BIT = 0 then none
    else
      some { props := m
             max_extent := { width := ifmtp.maxExtent.width, height := ifmtp.maxExtent.height } }

/-- The test that the loop of `query_modifier_support` runs for one modifier and one
usage: the query with `vk_srgb` as variant and, when that fails and `vk_srgb` is not
zero, the query without variant.  The result is the `p` to append, if `supported`. -/
def query_modifier_support_test (phdev : VkPhysicalDevice) (format : vulkan_format)
    (usage : Nat) (m : VkDrmFormatModifierPropertiesEXT) : Option vulkan_format_modifier_props :=
  match query_modifier_usage_support phdev format.vk format.vk_srgb usage m with
  | some p => some p
  | none =>
    if format.vk_srgb ≠ 0 then query_modifier_usage_support phdev format.vk 0 usage m
    else none

/-- The loop of `query_modifier_support` over the modifiers still to visit, on the
`props` being filled and the flag `found`. -/
def query_modifier_support_loop (phdev : VkPhysicalDevice) :
    List VkDrmFormatModifierPropertiesEXT → vulkan_format_props → Bool →
      vulkan_format_props × Bool
  | [], props, found => (props, found)
  | m :: rest, props, found =>
    let r : vulkan_format_props × Bool :=
      if m.drmFormatModifierTilingFeatures &&& render_features = render_features then
        match query_modifier_support_test phdev props.format vulkan_render_usage m with
        | some p => ({ props with render_mods := props.render_mods ++ [p] }, true)
        | none => (props, found)
      else (props, found)
    let t : vulkan_format_props × Bool :=
      if m.drmFormatModifierTilingFeatures &&& dma_tex_features = dma_tex_features then
        match query_modifier_support_test phdev r.1.format vulkan_dma_tex_usage m with
        | some p => ({ r.1 with texture_mods := r.1.texture_mods ++ [p] }, true)
        | none => r
      else r
    query_modifier_support_loop phdev rest t.1 t.2

/-- Whether each of the three `calloc` calls of `query_modifier_support` gives memory. -/
structure query_callocs where
  modifier_properties : Bool
  render_mods : Bool
  texture_mods : Bool
  deriving DecidableEq, Repr

/-- The function `query_modifier_support`: the `props` it leaves and the `bool` it
returns.  The device fills at most `modifier_count` modifiers into the array. -/
def query_modifier_support (phdev : VkPhysicalDevice) (callocs : query_callocs)
    (props : vulkan_format_props) (modifier_count : Nat) : vulkan_format_props × Bool :=
  if callocs.modifier_properties = false then (props, false)
  else
    let modp := (phdev.drmFormatModifierProperties props.format.vk).take modifier_count
    if callocs.render_mods = false ∨ callocs.texture_mods = false then
      ({ props with render_mods := [], texture_mods := [] }, false)
    else
      query_modifier_support_loop phdev modp props false

/-- The function `vulkan_format_props_query`: it appends the entry of `format` to the
capability table of `dev`, or leaves the table as it is. -/
def vulkan_format_props_query (callocs : query_callocs) (dev : gbm_vulkan_device)
    (phdev : VkPhysicalDevice) (format : vulkan_format) : gbm_vulkan_device :=
  let drmFormatModifierCount := (phdev.drmFormatModifierProperties format.vk).length
  let props : vulkan_format_props := { format := format, render_mods := [], texture_mods := [] }
  if drmFormatModifierCount > 0 then
    let r := query_modifier_support phdev callocs props drmFormatModifierCount
    if r.2 = true then { dev with format_props := dev.format_props ++ [r.1] }
    else dev
  else dev

/-- The last loop of `vulkan_device_create`: every format of the table `formats` is
probed in turn; `callocs i` are the allocation outcomes while probing format `i`. -/
def vulkan_device_create_loop (callocs : Nat → query_callocs) :
    List vulkan_format → Nat → gbm_vulkan_device → gbm_vulkan_device
  | [], _, vulkan => vulkan
  | format :: rest, i, vulkan =>
    vulkan_device_create_loop callocs rest (i + 1)
      (vulkan_format_props_query (callocs i) vulkan vulkan.physical_device format)

/-! ## The canonicalization of the host and concrete devices for the examples -/

def GBM_BO_FORMAT_XRGB8888 : Nat := 0
def GBM_BO_FORMAT_ARGB8888 : Nat := 1
/-- The code `fourcc_code('X', 'R', '2', '4')` of `drm_fourcc.h`. -/
def DRM_FORMAT_XRGB8888 : Nat := 0x34325258
/-- The code `fourcc_code('A', 'R', '2', '4')` of `drm_fourcc.h`. -/
def DRM_FORMAT_ARGB8888 : Nat := 0x34325241
def VK_FORMAT_B8G8R8A8_UNORM : Nat := 44
def VK_FORMAT_B8G8R8A8_SRGB : Nat := 50

/-- The callback `format_canonicalize` that the GBM core of Mesa (`gbm.c`) hands to its
backends: the two legacy `GBM_BO_FORMAT_*` values become their fourcc codes, every
other code is kept. -/
def core_format_canonicalize (gbm_format : Nat) : Nat :=
  if gbm_format = GBM_BO_FORMAT_XRGB8888 then DRM_FORMAT_XRGB8888
  else if gbm_format = GBM_BO_FORMAT_ARGB8888 then DRM_FORMAT_ARGB8888
  else gbm_format

/-- A capability entry for `DRM_FORMAT_XRGB8888`: the linear modifier and modifier 9
(3 planes) in both lists, and modifier 7 with a small extent for rendering. -/
def example_format_props : vulkan_format_props :=
  { format := { drm := DRM_FORMAT_XRGB8888, vk := VK_FORMAT_B8G8R8A8_UNORM,
                vk_srgb := VK_FORMAT_B8G8R8A8_SRGB }
    render_mods :=
      [ { props := { drmFormatModifier := 0, drmFormatModifierPlaneCount := 1,
                     drmFormatModifierTilingFeatures := 0x181 }
          max_extent := { width := 16384, height := 16384 } },
        { props := { drmFormatModifier := 7, drmFormatModifierPlaneCount := 2,
                     drmFormatModifierTilingFeatures := 0x181 }
          max_extent := { width := 1024, height := 1024 } },
        { props := { drmFormatModifier := 9, drmFormatModifierPlaneCount := 3,
                     drmFormatModifierTilingFeatures := 0x181 }
          max_extent := { width := 16384, height := 16384 } } ]
    texture_mods :=
      [ { props := { drmFormatModifier := 0, drmFormatModifierPlaneCount := 1,
                     drmFormatModifierTilingFeatures := 0x181 }
          max_extent := { width := 16384, height := 16384 } },
        { props := { drmFormatModifier := 9, drmFormatModifierPlaneCount := 3,
                     drmFormatModifierTilingFeatures := 0x181 }
          max_extent := { width := 16384, height := 16384 } } ] }

/-- A physical device with the DRM extension at node 226:0 / 226:128, a host-visible
and a device-local memory type, and no modifier for any format. -/
def example_physical_device : VkPhysicalDevice :=
  { extensionCount := some 2
    extensionProperties := some ["VK_KHR_external_memory_fd", "VK_EXT_physical_device_drm"]
    primaryMajor := 226
    primaryMinor := 0
    renderMajor := 226
    renderMinor := 128
    memoryTypes := [6, 1]
    drmFormatModifierProperties := fun _ => []
    imageFormatProperties2 := fun _ => none }

/-- A logical device on which every call succeeds, except image creation with an empty
picklist: image `1`, memory `2`, and modifier `9` as the committed one. -/
def example_logical_device : VkDevice :=
  { vkCreateImage := fun info => if info.drmFormatModifiers = [] then none else some 1
    vkGetImageMemoryRequirements := fun _ => { size := 8294400, memoryTypeBits := 3 }
    vkAllocateMemory := fun _ => some 2
    vkBindImageMemory := fun _ _ _ => true
    vkGetImageDrmFormatModifierPropertiesEXT := fun _ => some 9
    vkGetImageSubresourceLayout := fun _ _ => { offset := 0, rowPitch := 7680 }
    vkGetMemoryFdKHR := fun _ => some 5 }

def example_device : gbm_vulkan_device :=
  { physical_device := example_physical_device
    device := example_logical_device
    format_props := [example_format_props] }

/-! ## The predicates of the device selection, as the specification words them -/

/-- A device advertises the device-identity extension when the enumeration of its
extensions succeeds, is not empty, and lists `VK_EXT_physical_device_drm`. -/
def advertises_drm_extension (phdev : VkPhysicalDevice) : Prop :=
  ∃ avail_extc avail_ext_props,
    phdev.extensionCount = some avail_extc ∧ avail_extc ≠ 0 ∧
    phdev.extensionProperties = some avail_ext_props ∧
    VK_EXT_PHYSICAL_DEVICE_DRM_EXTENSION_NAME ∈ avail_ext_props

/-- The primary-node or the render-node identity of the device is the target identity. -/
def node_identity_matches (makedev : Int → Int → Nat) (st_rdev : Nat)
    (phdev : VkPhysicalDevice) : Prop :=
  makedev phdev.primaryMajor phdev.primaryMinor = st_rdev
    ∨ makedev phdev.renderMajor phdev.renderMinor = st_rdev

/-- The macro `makedev` of glibc (`gnu_dev_makedev`) on the low 32 bits of its arguments. -/
def gnu_dev_makedev (major minor : Int) : Nat :=
  let ma := (major % 2 ^ 32).toNat
  let mi := (minor % 2 ^ 32).toNat
  ((ma &&& 0x00000fff) <<< 8) ||| ((ma &&& 0xfffff000) <<< 32) |||
    (mi &&& 0x000000ff) ||| ((mi &&& 0xffffff00) <<< 12)

/-! ## The outcome of the probing of one modifier, and a device for its examples -/

/-- The image-format query that the specification speaks of, for a format, a usage, a
modifier and dma-buf external memory: with `alternate = some second` the image is
mutable and `second` is its second view format, with `none` the format is the only view
format. -/
def external_image_query (vk_format usage modifier : Nat) (alternate : Option Nat) :
    VkPhysicalDeviceImageFormatInfo2 :=
  match alternate with
  | some second =>
    { format := vk_format, usage := usage, flags := VK_IMAGE_CREATE_MUTABLE_FORMAT_BIT,
      tiling := VK_IMAGE_TILING_DRM_FORMAT_MODIFIER_EXT,
      handleType := VK_EXTERNAL_MEMORY_HANDLE_TYPE_DMA_BUF_BIT_EXT,
      drmFormatModifier := modifier, viewFormats := [vk_format, second] }
  | none =>
    { format := vk_format, usage := usage, flags := 0,
      tiling := VK_IMAGE_TILING_DRM_FORMAT_MODIFIER_EXT,
      handleType := VK_EXTERNAL_MEMORY_HANDLE_TYPE_DMA_BUF_BIT_EXT,
      drmFormatModifier := modifier, viewFormats := [vk_format] }

/-- The device answers the query without error and reports the importable capability,
which is bit 2 (`0x4`) of the external memory features. -/
def importable_under (phdev : VkPhysicalDevice) (vk_format usage modifier : Nat)
    (alternate : Option Nat) : Bool :=
  match phdev.imageFormatProperties2 (external_image_query vk_format usage modifier alternate) with
  | some answer => answer.externalMemoryFeatures.testBit 2
  | none => false

/-- A modifier is usable under a usage profile, in the words of the specification: the
device answers the query with the non-linear alternate of the format as second view
format, when the format has one, or else the query without it, without error and with
the importable capability.  This is said of the answers of the device alone. -/
def modifier_usable (phdev : VkPhysicalDevice) (format : vulkan_format) (usage : Nat)
    (m : VkDrmFormatModifierPropertiesEXT) : Bool :=
  (format.vk_srgb != 0
      && importable_under phdev format.vk usage m.drmFormatModifier (some format.vk_srgb))
    || importable_under phdev format.vk usage m.drmFormatModifier none

/-- The render half of one turn of the loop of `query_modifier_support`: what the turn
appends to `render_mods` for the modifier `m`, if anything. -/
def render_probe (phdev : VkPhysicalDevice) (format : vulkan_format)
    (m : VkDrmFormatModifierPropertiesEXT) : Option vulkan_format_modifier_props :=
  if m.drmFormatModifierTilingFeatures &&& render_features = render_features then
    query_modifier_support_test phdev format vulkan_render_usage m
  else none

/-- The texture half of one turn of the loop of `query_modifier_support`. -/
def texture_probe (phdev : VkPhysicalDevice) (format : vulkan_format)
    (m : VkDrmFormatModifierPropertiesEXT) : Option vulkan_format_modifier_props :=
  if m.drmFormatModifierTilingFeatures &&& dma_tex_features = dma_tex_features then
    query_modifier_support_test phdev format vulkan_dma_tex_usage m
  else none

/-- The three allocations of `query_modifier_support` succeed. -/
def callocs_succeed : query_callocs :=
  { modifier_properties := true, render_mods := true, texture_mods := true }

def example_format : vulkan_format :=
  { drm := DRM_FORMAT_XRGB8888, vk := VK_FORMAT_B8G8R8A8_UNORM, vk_srgb := VK_FORMAT_B8G8R8A8_SRGB }

/-- A physical device that reports four modifiers for `VK_FORMAT_B8G8R8A8_UNORM`:
the linear one and modifier 7 with all render features, modifier 9 without the blend
feature, modifier 11 without the sampled-image feature.  Every image format query
succeeds with the importable capability, except the queries for modifier 7 with the sRGB
alternate (which fail) and the queries for modifier 11 (not importable). -/
def example_probing_device : VkPhysicalDevice :=
  { example_physical_device with
    drmFormatModifierProperties := fun vk =>
      if vk = VK_FORMAT_B8G8R8A8_UNORM then
        [ { drmFormatModifier := 0, drmFormatModifierPlaneCount := 1,
            drmFormatModifierTilingFeatures := 0x181 },
          { drmFormatModifier := 7, drmFormatModifierPlaneCount := 2,
            drmFormatModifierTilingFeatures := 0x181 },
          { drmFormatModifier := 9, drmFormatModifierPlaneCount := 3,
            drmFormatModifierTilingFeatures := 0x81 },
          { drmFormatModifier := 11, drmFormatModifierPlaneCount := 1,
            drmFormatModifierTilingFeatures := 0x180 } ]
      else []
    imageFormatProperties2 := fun fmti =>
      if fmti.drmFormatModifier = 7 ∧ fmti.viewFormats.length = 2 then none
      else if fmti.drmFormatModifier = 11 then
        some { externalMemoryFeatures := 0x2, maxExtent := { width := 4096, height := 4096 } }
      else if fmti.viewFormats.length = 2 then
        some { externalMemoryFeatures := 0x6, maxExtent := { width := 16384, height := 16384 } }
      else
        some { externalMemoryFeatures := 0x6, maxExtent := { width := 8192, height := 8192 } } }

/-- A physical device that reports six modifiers for `VK_FORMAT_B8G8R8A8_UNORM`.
Modifiers 0 and 7 have all render features and are importable (7 only without the sRGB
alternate); modifier 9 lacks the blend feature and is importable; modifier 11 lacks the
sampled-image feature; modifier 13 has all render features but the device reports only
the exportable capability for it; modifier 15 has all render features but every query
for it fails. -/
def example_guarded_device : VkPhysicalDevice :=
  { example_physical_device with
    drmFormatModifierProperties := fun vk =>
      if vk = VK_FORMAT_B8G8R8A8_UNORM then
        [ { drmFormatModifier := 0, drmFormatModifierPlaneCount := 1,
            drmFormatModifierTilingFeatures := 0x181 },
          { drmFormatModifier := 7, drmFormatModifierPlaneCount := 2,
            drmFormatModifierTilingFeatures := 0x181 },
          { drmFormatModifier := 9, drmFormatModifierPlaneCount := 3,
            drmFormatModifierTilingFeatures := 0x81 },
          { drmFormatModifier := 11, drmFormatModifierPlaneCount := 1,
            drmFormatModifierTilingFeatures := 0x180 },
          { drmFormatModifier := 13, drmFormatModifierPlaneCount := 1,
            drmFormatModifierTilingFeatures := 0x181 },
          { drmFormatModifier := 15, drmFormatModifierPlaneCount := 4,
            drmFormatModifierTilingFeatures := 0x181 } ]
      else []
    imageFormatProperties2 := fun fmti =>
      if fmti.drmFormatModifier = 15 then none
      else if fmti.drmFormatModifier = 7 ∧ fmti.viewFormats.length = 2 then none
      else if fmti.drmFormatModifier = 13 ∨ fmti.drmFormatModifier = 11 then
        some { externalMemoryFeatures := 0x2, maxExtent := { width := 4096, height := 4096 } }
      else if fmti.viewFormats.length = 2 then
        some { externalMemoryFeatures := 0x6, maxExtent := { width := 16384, height := 16384 } }
      else
        some { externalMemoryFeatures := 0x6, maxExtent := { width := 8192, height := 8192 } } }

/-! ## Names for the steps of `gbm_vulkan_bo_create` -/

/-- The `mem_alloc` structure that `gbm_vulkan_bo_create` builds for the image `image`. -/
def bo_create_mem_alloc (vulkan : gbm_vulkan_device) (image : Nat) : VkMemoryAllocateInfo :=
  { allocationSize := (vulkan.device.vkGetImageMemoryRequirements image).size
    memoryTypeIndex :=
      vulkan_find_mem_type vulkan.physical_device VK_MEMORY_PROPERTY_DEVICE_LOCAL_BIT
        (vulkan.device.vkGetImageMemoryRequirements image).memoryTypeBits
    handleTypes := VK_EXTERNAL_MEMORY_HANDLE_TYPE_DMA_BUF_BIT_EXT }

/-- The object of `gbm_vulkan_bo_create` once `image` and `memory` are stored in it
(`0` for a handle not yet created), before the modifier and plane count are. -/
def bo_create_partial_bo (format_canonicalize : Nat → Nat) (width height format image
    memory : Nat) : gbm_vulkan_bo :=
  { width := width, height := height, format := format_canonicalize format,
    image := image, memory := memory, modifier := 0, plane_cnt := 0 }

/-- The example device with a physical device that has no device-local memory type. -/
def example_device_without_local_memory : gbm_vulkan_device :=
  { example_device with
    physical_device := { example_physical_device with memoryTypes := [6] } }

/-- The example device with a logical device on which `vkBindImageMemory` fails. -/
def example_device_bind_fails : gbm_vulkan_device :=
  { example_device with
    device := { example_logical_device with vkBindImageMemory := fun _ _ _ => false } }

/-- The example device with a driver that creates an image whatever the picklist is,
the empty one included. -/
def example_device_accepts_empty_picklist : gbm_vulkan_device :=
  { example_device with
    device := { example_logical_device with vkCreateImage := fun _ => some 1 } }

/-! ## The format table -/

/-- The macro `fourcc_code` of `drm_fourcc.h`. -/
def fourcc_code (a b c d : Char) : Nat :=
  a.toNat ||| (b.toNat <<< 8) ||| (c.toNat <<< 16) ||| (d.toNat <<< 24)

def DRM_FORMAT_R8 : Nat := fourcc_code 'R' '8' ' ' ' '
def DRM_FORMAT_GR88 : Nat := fourcc_code 'G' 'R' '8' '8'
def DRM_FORMAT_RGB888 : Nat := fourcc_code 'R' 'G' '2' '4'
def DRM_FORMAT_BGR888 : Nat := fourcc_code 'B' 'G' '2' '4'
def DRM_FORMAT_XBGR8888 : Nat := fourcc_code 'X' 'B' '2' '4'
def DRM_FORMAT_ABGR8888 : Nat := fourcc_code 'A' 'B' '2' '4'
def DRM_FORMAT_RGBA4444 : Nat := fourcc_code 'R' 'A' '1' '2'
def DRM_FORMAT_RGBX4444 : Nat := fourcc_code 'R' 'X' '1' '2'
def DRM_FORMAT_BGRA4444 : Nat := fourcc_code 'B' 'A' '1' '2'
def DRM_FORMAT_BGRX4444 : Nat := fourcc_code 'B' 'X' '1' '2'
def DRM_FORMAT_RGB565 : Nat := fourcc_code 'R' 'G' '1' '6'
def DRM_FORMAT_BGR565 : Nat := fourcc_code 'B' 'G' '1' '6'
def DRM_FORMAT_RGBA5551 : Nat := fourcc_code 'R' 'A' '1' '5'
def DRM_FORMAT_RGBX5551 : Nat := fourcc_code 'R' 'X' '1' '5'
def DRM_FORMAT_BGRA5551 : Nat := fourcc_code 'B' 'A' '1' '5'
def DRM_FORMAT_BGRX5551 : Nat := fourcc_code 'B' 'X' '1' '5'
def DRM_FORMAT_ARGB1555 : Nat := fourcc_code 'A' 'R' '1' '5'
def DRM_FORMAT_XRGB1555 : Nat := fourcc_code 'X' 'R' '1' '5'
def DRM_FORMAT_ARGB2101010 : Nat := fourcc_code 'A' 'R' '3' '0'
def DRM_FORMAT_XRGB2101010 : Nat := fourcc_code 'X' 'R' '3' '0'
def DRM_FORMAT_ABGR2101010 : Nat := fourcc_code 'A' 'B' '3' '0'
def DRM_FORMAT_XBGR2101010 : Nat := fourcc_code 'X' 'B' '3' '0'
def DRM_FORMAT_ABGR16161616 : Nat := fourcc_code 'A' 'B' '4' '8'
def DRM_FORMAT_XBGR16161616 : Nat := fourcc_code 'X' 'B' '4' '8'
def DRM_FORMAT_ABGR16161616F : Nat := fourcc_code 'A' 'B' '4' 'H'
def DRM_FORMAT_XBGR16161616F : Nat := fourcc_code 'X' 'B' '4' 'H'

def VK_FORMAT_R4G4B4A4_UNORM_PACK16 : Nat := 2
def VK_FORMAT_B4G4R4A4_UNORM_PACK16 : Nat := 3
def VK_FORMAT_R5G6B5_UNORM_PACK16 : Nat := 4
def VK_FORMAT_B5G6R5_UNORM_PACK16 : Nat := 5
def VK_FORMAT_R5G5B5A1_UNORM_PACK16 : Nat := 6
def VK_FORMAT_B5G5R5A1_UNORM_PACK16 : Nat := 7
def VK_FORMAT_A1R5G5B5_UNORM_PACK16 : Nat := 8
def VK_FORMAT_R8_UNORM : Nat := 9
def VK_FORMAT_R8_SRGB : Nat := 15
def VK_FORMAT_R8G8_UNORM : Nat := 16
def VK_FORMAT_R8G8_SRGB : Nat := 22
def VK_FORMAT_R8G8B8_UNORM : Nat := 23
def VK_FORMAT_R8G8B8_SRGB : Nat := 29
def VK_FORMAT_B8G8R8_UNORM : Nat := 30
def VK_FORMAT_B8G8R8_SRGB : Nat := 36
def VK_FORMAT_R8G8B8A8_UNORM : Nat := 37
def VK_FORMAT_R8G8B8A8_SRGB : Nat := 43
def VK_FORMAT_A2R10G10B10_UNORM_PACK32 : Nat := 58
def VK_FORMAT_A2B10G10R10_UNORM_PACK32 : Nat := 64
def VK_FORMAT_R16G16B16A16_UNORM : Nat := 91
def VK_FORMAT_R16G16B16A16_SFLOAT : Nat := 97

/-- The entries of `formats` that are compiled in every build. -/
def formats_8bit : List vulkan_format :=
  [ { drm := DRM_FORMAT_R8, vk := VK_FORMAT_R8_UNORM, vk_srgb := VK_FORMAT_R8_SRGB },
    { drm := DRM_FORMAT_GR88, vk := VK_FORMAT_R8G8_UNORM, vk_srgb := VK_FORMAT_R8G8_SRGB },
    { drm := DRM_FORMAT_RGB888, vk := VK_FORMAT_B8G8R8_UNORM, vk_srgb := VK_FORMAT_B8G8R8_SRGB },
    { drm := DRM_FORMAT_BGR888, vk := VK_FORMAT_R8G8B8_UNORM, vk_srgb := VK_FORMAT_R8G8B8_SRGB },
    { drm := DRM_FORMAT_XRGB8888, vk := VK_FORMAT_B8G8R8A8_UNORM,
      vk_srgb := VK_FORMAT_B8G8R8A8_SRGB },
    { drm := DRM_FORMAT_XBGR8888, vk := VK_FORMAT_R8G8B8A8_UNORM,
      vk_srgb := VK_FORMAT_R8G8B8A8_SRGB },
    { drm := DRM_FORMAT_ARGB8888, vk := VK_FORMAT_B8G8R8A8_UNORM, vk_srgb := 0 },
    { drm := DRM_FORMAT_ABGR8888, vk := VK_FORMAT_R8G8B8A8_UNORM, vk_srgb := 0 } ]

/-- The packed entries of `formats`, under the first `#if CPU_LITTLE_ENDIAN`. -/
def formats_packed : List vulkan_format :=
  [ { drm := DRM_FORMAT_RGBA4444, vk := VK_FORMAT_R4G4B4A4_UNORM_PACK16, vk_srgb := 0 },
    { drm := DRM_FORMAT_RGBX4444, vk := VK_FORMAT_R4G4B4A4_UNORM_PACK16, vk_srgb := 0 },
    { drm := DRM_FORMAT_BGRA4444, vk := VK_FORMAT_B4G4R4A4_UNORM_PACK16, vk_srgb := 0 },
    { drm := DRM_FORMAT_BGRX4444, vk := VK_FORMAT_B4G4R4A4_UNORM_PACK16, vk_srgb := 0 },
    { drm := DRM_FORMAT_RGB565, vk := VK_FORMAT_R5G6B5_UNORM_PACK16, vk_srgb := 0 },
    { drm := DRM_FORMAT_BGR565, vk := VK_FORMAT_B5G6R5_UNORM_PACK16, vk_srgb := 0 },
    { drm := DRM_FORMAT_RGBA5551, vk := VK_FORMAT_R5G5B5A1_UNORM_PACK16, vk_srgb := 0 },
    { drm := DRM_FORMAT_RGBX5551, vk := VK_FORMAT_R5G5B5A1_UNORM_PACK16, vk_srgb := 0 },
    { drm := DRM_FORMAT_BGRA5551, vk := VK_FORMAT_B5G5R5A1_UNORM_PACK16, vk_srgb := 0 },
    { drm := DRM_FORMAT_BGRX5551, vk := VK_FORMAT_B5G5R5A1_UNORM_PACK16, vk_srgb := 0 },
    { drm := DRM_FORMAT_ARGB1555, vk := VK_FORMAT_A1R5G5B5_UNORM_PACK16, vk_srgb := 0 },
    { drm := DRM_FORMAT_XRGB1555, vk := VK_FORMAT_A1R5G5B5_UNORM_PACK16, vk_srgb := 0 },
    { drm := DRM_FORMAT_ARGB2101010, vk := VK_FORMAT_A2R10G10B10_UNORM_PACK32, vk_srgb := 0 },
    { drm := DRM_FORMAT_XRGB2101010, vk := VK_FORMAT_A2R10G10B10_UNORM_PACK32, vk_srgb := 0 },
    { drm := DRM_FORMAT_ABGR2101010, vk := VK_FORMAT_A2B10G10R10_UNORM_PACK32, vk_srgb := 0 },
    { drm := DRM_FORMAT_XBGR2101010, vk := VK_FORMAT_A2B10G10R10_UNORM_PACK32, vk_srgb := 0 } ]

/-- The 16-bits-per-channel entries of `formats`, under the second `#if CPU_LITTLE_ENDIAN`. -/
def formats_16bit : List vulkan_format :=
  [ { drm := DRM_FORMAT_ABGR16161616, vk := VK_FORMAT_R16G16B16A16_UNORM, vk_srgb := 0 },
    { drm := DRM_FORMAT_XBGR16161616, vk := VK_FORMAT_R16G16B16A16_UNORM, vk_srgb := 0 },
    { drm := DRM_FORMAT_ABGR16161616F, vk := VK_FORMAT_R16G16B16A16_SFLOAT, vk_srgb := 0 },
    { drm := DRM_FORMAT_XBGR16161616F, vk := VK_FORMAT_R16G16B16A16_SFLOAT, vk_srgb := 0 } ]

/-- The table `formats`; `cpu_little_endian` is the value of the build macro
`CPU_LITTLE_ENDIAN`.  A field that an initializer leaves out is zero. -/
def formats (cpu_little_endian : Bool) : List vulkan_format :=
  formats_8bit ++ (if cpu_little_endian then formats_packed else [])
    ++ (if cpu_little_endian then formats_16bit else [])

/-- The loop of `vulkan_get_format_from_drm`; `none` is `NULL`. -/
def vulkan_get_format_from_drm (cpu_little_endian : Bool) (drm_format : Nat) :
    Option vulkan_format :=
  (formats cpu_little_endian).find? (fun f => f.drm == drm_format)

/-! ## Destruction of the device context -/

/-- The calls that release a resource of the device context.  The two modifier arrays
of a capability entry are named by the format code of the entry. -/
inductive ContextCall where
  | free_render_mods (drm : Nat)
  | free_texture_mods (drm : Nat)
  | free_format_props
  | vkDestroyDevice (device : Nat)
  | vkDestroyInstance (vk_instance : Nat)
  | free_vulkan
  deriving DecidableEq, Repr

/-- The fields of `struct gbm_vulkan_device` that own resources: the handles `instance`
and `device` (`0`: `VK_NULL_HANDLE`) and the array `format_props` (`none`: `NULL`), each
entry of which owns its `render_mods` and `texture_mods` arrays. -/
structure gbm_vulkan_device_resources where
  vk_instance : Nat
  vk_device : Nat
  format_props : Option (List vulkan_format_props)
  deriving DecidableEq, Repr

/-- The two `free` calls of `vulkan_format_props_finish`. -/
def vulkan_format_props_finish (props : vulkan_format_props) : List ContextCall :=
  [ContextCall.free_render_mods props.format.drm, ContextCall.free_texture_mods props.format.drm]

/-- The calls of `vulkan_destroy`; `none` is the `NULL` context. -/
def vulkan_destroy (gbm : Option gbm_vulkan_device_resources) : List ContextCall :=
  match gbm with
  | none => []
  | some vulkan =>
    (if vulkan.vk_device ≠ 0 then [ContextCall.vkDestroyDevice vulkan.vk_device] else []) ++
    (if vulkan.vk_instance ≠ 0 then [ContextCall.vkDestroyInstance vulkan.vk_instance] else []) ++
    [ContextCall.free_vulkan]

/-- The releases that the specification asks of the destruction of a context, in its
order: the modifier lists of every capability table entry, the capability table, the
logical device, the instance (each if acquired), and the context itself. -/
def spec_destroy_calls (vulkan : gbm_vulkan_device_resources) : List ContextCall :=
  (match vulkan.format_props with
   | none => []
   | some table =>
     (table.map vulkan_format_props_finish).flatten ++ [ContextCall.free_format_props]) ++
  (if vulkan.vk_device ≠ 0 then [ContextCall.vkDestroyDevice vulkan.vk_device] else []) ++
  (if vulkan.vk_instance ≠ 0 then [ContextCall.vkDestroyInstance vulkan.vk_instance] else []) ++
  [ContextCall.free_vulkan]

/-- The resources of a context that `vulkan_device_create` has built on the probing
example: instance `1`, device `2`, and the capability table that the probing loop fills
for the one format `example_format`. -/
def example_ready_context : gbm_vulkan_device_resources :=
  { vk_instance := 1
    vk_device := 2
    format_props := some
      (vulkan_device_create_loop (fun _ => callocs_succeed) [example_format] 0
        { physical_device := example_probing_device, device := example_logical_device,
          format_props := [] }).format_props }

/-! ## Names and devices for the theorems on the accessors and on the second lookup -/

/-- The flag `VK_IMAGE_ASPECT_MEMORY_PLANE_p_BIT_EXT` of the memory plane `p`, `p ≤ 3`. -/
def memory_plane_aspect (p : Nat) : Nat :=
  match p with
  | 0 => VK_IMAGE_ASPECT_MEMORY_PLANE_0_BIT_EXT
  | 1 => VK_IMAGE_ASPECT_MEMORY_PLANE_1_BIT_EXT
  | 2 => VK_IMAGE_ASPECT_MEMORY_PLANE_2_BIT_EXT
  | _ => VK_IMAGE_ASPECT_MEMORY_PLANE_3_BIT_EXT

/-- The example device with a driver that reports, for every plane, a byte offset of
`2^32 + 4096` and a row pitch of `2^32`. -/
def example_device_large_layout : gbm_vulkan_device :=
  { example_device with
    device := { example_logical_device with
      vkGetImageSubresourceLayout := fun _ _ => { offset := 4294971392, rowPitch := 4294967296 } } }

/-- The example device with a driver that commits modifier 5, which the capability
table does not have. -/
def example_device_commits_unknown : gbm_vulkan_device :=
  { example_device with
    device := { example_logical_device with
      vkGetImageDrmFormatModifierPropertiesEXT := fun _ => some 5 } }

/-! # Theorems -/

/-! ## Helper lemmas -/

theorem lor_eq_zero_left (a b : Nat) (h : a ||| b = 0) : a = 0 := by
  apply Nat.eq_of_testBit_eq
  intro i
  have hi := congrArg (fun n => Nat.testBit n i) h
  simp [Nat.testBit_or] at hi
  simp [hi.1]

theorem lor_eq_zero_right (a b : Nat) (h : a ||| b = 0) : b = 0 := by
  rw [Nat.lor_comm] at h
  exact lor_eq_zero_left b a h

theorem land_lor_ne_zero (u a b : Nat) (h : u &&& a ≠ 0 ∨ u &&& b ≠ 0) :
    u &&& (a ||| b) ≠ 0 := by
  intro h0
  rw [Nat.and_or_distrib_left] at h0
  rcases h with h | h
  · exact h (lor_eq_zero_left _ _ h0)
  · exact h (lor_eq_zero_right _ _ h0)

theorem land_lor_eq_zero (u a b : Nat) (ha : u &&& a = 0) (hb : u &&& b = 0) :
    u &&& (a ||| b) = 0 := by
  rw [Nat.and_or_distrib_left, ha, hb]
  rfl

/-- The `bool` that `usage & GBM_BO_USE_RENDERING` converts to is bit 2 of `usage`. -/
theorem rendering_flag_eq_testBit (usage : Nat) :
    (usage &&& GBM_BO_USE_RENDERING != 0) = usage.testBit 2 := by
  have h := Nat.and_two_pow usage 2
  norm_num at h
  rw [GBM_BO_USE_RENDERING, h]
  cases usage.testBit 2 <;> simp

/-- The filtering loop appends to what is already written the candidates that pass. -/
theorem bo_create_filter_loop_eq (format_props : vulkan_format_props) (render : Bool)
    (width height : Nat) (modifiers filtered_mods : List Nat) :
    bo_create_filter_loop format_props render width height modifiers filtered_mods =
      filtered_mods ++ modifiers.filter (fun m =>
        match vulkan_format_props_find_modifier format_props m render with
        | some p => decide (width ≤ p.max_extent.width ∧ height ≤ p.max_extent.height)
        | none => false) := by
  induction modifiers generalizing filtered_mods with
  | nil => simp [bo_create_filter_loop]
  | cons m rest ih =>
    rw [bo_create_filter_loop]
    cases hfind : vulkan_format_props_find_modifier format_props m render with
    | none => simp [ih, List.filter_cons, hfind]
    | some p =>
      have hmod : p.props.drmFormatModifier = m := by
        unfold vulkan_format_props_find_modifier at hfind
        split at hfind
        · have := List.find?_some hfind
          simpa using this
        · have := List.find?_some hfind
          simpa using this
      by_cases hext : p.max_extent.width < width ∨ p.max_extent.height < height
      · have hno : ¬ (width ≤ p.max_extent.width ∧ height ≤ p.max_extent.height) := by omega
        simp [ih, List.filter_cons, hfind, hext, hno]
      · have hyes : width ≤ p.max_extent.width ∧ height ≤ p.max_extent.height := by omega
        simp [ih, List.filter_cons, hfind, hext, hyes, hmod]

/-- Past the usage and format checks the run starts with the allocation of the object
and one call of `vkCreateImage` on `img_create`, and creates no other image. -/
theorem bo_create_trace_shape (format_canonicalize : Nat → Nat) (vulkan : gbm_vulkan_device)
    (width height format usage : Nat) (modifiers : List Nat) (format_props : vulkan_format_props)
    (husage : usage &&& (GBM_BO_USE_PROTECTED ||| GBM_BO_USE_WRITE) = 0)
    (hfmt : vulkan_format_props_from_drm vulkan (format_canonicalize format) = some format_props) :
    ∃ rest, (gbm_vulkan_bo_create format_canonicalize true vulkan width height format usage
        modifiers).2 =
      Call.calloc_bo true ::
        Call.vkCreateImage (bo_create_img_create format_props width height usage modifiers)
          (vulkan.device.vkCreateImage
            (bo_create_img_create format_props width height usage modifiers)) :: rest
      ∧ ∀ c ∈ rest, ∀ info result, c ≠ Call.vkCreateImage info result := by
  have hdestroy : ∀ bo : gbm_vulkan_bo, ∀ c ∈ gbm_vulkan_bo_destroy bo,
      ∀ info result, c ≠ Call.vkCreateImage info result := by
    intro bo c hc info result
    unfold gbm_vulkan_bo_destroy at hc
    simp only [List.mem_append, List.mem_singleton] at hc
    rcases hc with (hc | hc) | hc
    · split at hc
      · simp at hc; simp [hc]
      · simp at hc
    · split at hc
      · simp at hc; simp [hc]
      · simp at hc
    · simp [hc]
  unfold gbm_vulkan_bo_create
  simp only [husage, hfmt, ne_eq, not_true_eq_false, if_false]
  cases hci : vulkan.device.vkCreateImage
      (bo_create_img_create format_props width height usage modifiers) with
  | none =>
    refine ⟨_, rfl, ?_⟩
    intro c hc
    exact hdestroy _ c hc
  | some image =>
    simp only [List.append_assoc, List.cons_append, List.nil_append]
    repeat' split
    all_goals first
      | contradiction
      | (refine ⟨_, rfl, ?_⟩
         simp only [List.forall_mem_cons, List.forall_mem_append]
         simp <;> exact hdestroy _)

/-! ## Buffer creation -/

/-- C1: the picklist of the `img_create` that `gbm_vulkan_bo_create` builds is the
sub-sequence of the candidates, in input order, of those found in the list of the usage
class (`render_mods` when bit `GBM_BO_USE_RENDERING` of `usage` is set, `texture_mods`
otherwise) with a recorded max extent of at least the requested width and height; and
past the usage check, the allocation of the object and the format lookup, the run calls
`vkCreateImage` once, on that `img_create`. -/
theorem bo_create_picklist_is_filtered_candidates (format_canonicalize : Nat → Nat)
    (vulkan : gbm_vulkan_device) (width height format usage : Nat) (modifiers : List Nat)
    (format_props : vulkan_format_props) :
    (bo_create_img_create format_props width height usage modifiers).drmFormatModifiers =
      modifiers.filter (fun m =>
        match (if usage.testBit 2 then format_props.render_mods
               else format_props.texture_mods).find? (fun p => p.props.drmFormatModifier == m) with
        | some p => decide (width ≤ p.max_extent.width ∧ height ≤ p.max_extent.height)
        | none => false)
    ∧ (usage &&& GBM_BO_USE_WRITE = 0 → usage &&& GBM_BO_USE_PROTECTED = 0 →
        vulkan_format_props_from_drm vulkan (format_canonicalize format) = some format_props →
        ∃ rest, (gbm_vulkan_bo_create format_canonicalize true vulkan width height format usage
            modifiers).2 =
          Call.calloc_bo true ::
            Call.vkCreateImage (bo_create_img_create format_props width height usage modifiers)
              (vulkan.device.vkCreateImage
                (bo_create_img_create format_props width height usage modifiers)) :: rest
          ∧ ∀ c ∈ rest, ∀ info result, c ≠ Call.vkCreateImage info result) := by
  constructor
  · simp only [bo_create_img_create, bo_create_filter_loop_eq, List.nil_append,
      rendering_flag_eq_testBit, vulkan_format_props_find_modifier]
    congr 1
    funext m
    cases usage.testBit 2 <;> simp
  · intro hw hp hfmt
    exact bo_create_trace_shape format_canonicalize vulkan width height format usage modifiers
      format_props (land_lor_eq_zero usage _ _ hp hw) hfmt

/-- C1, on the example device: of the candidates `[7, 0, 5, 9, 0]` for a 1920x1080
rendering buffer, `7` is too small and `5` is unknown, and `[0, 9, 0]` is handed over. -/
theorem bo_create_picklist_is_filtered_candidates_witness :
    (bo_create_img_create example_format_props 1920 1080 GBM_BO_USE_RENDERING
        [7, 0, 5, 9, 0]).drmFormatModifiers = [0, 9, 0]
    ∧ ∃ rest, (gbm_vulkan_bo_create core_format_canonicalize true example_device 1920 1080
          GBM_BO_FORMAT_XRGB8888 GBM_BO_USE_RENDERING [7, 0, 5, 9, 0]).2 =
        Call.calloc_bo true ::
          Call.vkCreateImage (bo_create_img_create example_format_props 1920 1080
              GBM_BO_USE_RENDERING [7, 0, 5, 9, 0])
            (example_device.device.vkCreateImage (bo_create_img_create example_format_props
              1920 1080 GBM_BO_USE_RENDERING [7, 0, 5, 9, 0])) :: rest
        ∧ ∀ c ∈ rest, ∀ info result, c ≠ Call.vkCreateImage info result := by
  have h := bo_create_picklist_is_filtered_candidates core_format_canonicalize example_device
    1920 1080 GBM_BO_FORMAT_XRGB8888 GBM_BO_USE_RENDERING [7, 0, 5, 9, 0] example_format_props
  refine ⟨?_, h.2 (by decide) (by decide) (by decide)⟩
  rw [h.1]
  decide

/-- C2: when `usage` has bit `GBM_BO_USE_WRITE` or bit `GBM_BO_USE_PROTECTED`,
`gbm_vulkan_bo_create` returns `NULL` and its run has no call at all: no object, image
or memory is allocated, whatever the other arguments and the device are. -/
theorem bo_create_write_or_protected_fails (format_canonicalize : Nat → Nat)
    (calloc_ok : Bool) (vulkan : gbm_vulkan_device) (width height format usage : Nat)
    (modifiers : List Nat)
    (h : usage &&& GBM_BO_USE_WRITE ≠ 0 ∨ usage &&& GBM_BO_USE_PROTECTED ≠ 0) :
    gbm_vulkan_bo_create format_canonicalize calloc_ok vulkan width height format usage
      modifiers = (.ok none, []) := by
  have hne : usage &&& (GBM_BO_USE_PROTECTED ||| GBM_BO_USE_WRITE) ≠ 0 :=
    land_lor_ne_zero usage _ _ (Or.symm h)
  unfold gbm_vulkan_bo_create
  simp only [hne, ne_eq, not_false_eq_true, if_true]

/-- C2, on the example device: a rendering request that also asks for CPU writes. -/
theorem bo_create_write_or_protected_fails_witness :
    (GBM_BO_USE_RENDERING ||| GBM_BO_USE_WRITE) &&& GBM_BO_USE_WRITE ≠ 0
    ∧ gbm_vulkan_bo_create core_format_canonicalize true example_device 1920 1080
        DRM_FORMAT_XRGB8888 (GBM_BO_USE_RENDERING ||| GBM_BO_USE_WRITE) [0] = (.ok none, []) :=
  ⟨by decide, bo_create_write_or_protected_fails core_format_canonicalize true example_device
    1920 1080 DRM_FORMAT_XRGB8888 (GBM_BO_USE_RENDERING ||| GBM_BO_USE_WRITE) [0]
    (Or.inl (by decide))⟩

/-- A buffer object that `gbm_vulkan_bo_create` returns has the modifier the driver
reports for its image and the plane count of the entry that the second lookup returns. -/
theorem bo_create_returns_looked_up_entry (format_canonicalize : Nat → Nat)
    (calloc_ok : Bool) (vulkan : gbm_vulkan_device) (width height format usage : Nat)
    (modifiers : List Nat) (bo : gbm_vulkan_bo) (trace : List Call)
    (hok : gbm_vulkan_bo_create format_canonicalize calloc_ok vulkan width height format usage
      modifiers = (.ok (some bo), trace)) :
    ∃ format_props committed mod_props,
      vulkan_format_props_from_drm vulkan (format_canonicalize format) = some format_props
      ∧ vulkan.device.vkGetImageDrmFormatModifierPropertiesEXT bo.image = some committed
      ∧ vulkan_format_props_find_modifier format_props committed
          (usage &&& GBM_BO_USE_RENDERING != 0) = some mod_props
      ∧ bo.modifier = committed
      ∧ bo.plane_cnt = mod_props.props.drmFormatModifierPlaneCount := by
  unfold gbm_vulkan_bo_create at hok
  by_cases hu : usage &&& (GBM_BO_USE_PROTECTED ||| GBM_BO_USE_WRITE) ≠ 0
  · simp [hu] at hok
  cases calloc_ok with
  | false => simp [hu] at hok
  | true =>
  cases hfp : vulkan_format_props_from_drm vulkan (format_canonicalize format) with
  | none => simp [hu, hfp] at hok
  | some format_props =>
  cases hci : vulkan.device.vkCreateImage
      (bo_create_img_create format_props width height usage modifiers) with
  | none => simp [hu, hfp, hci] at hok
  | some image =>
  simp only [hu, hfp, hci, if_false, Bool.true_eq_false] at hok
  split at hok
  · simp at hok
  split at hok
  · simp at hok
  split at hok
  · simp at hok
  split at hok
  · simp at hok
  rename_i committed hcommitted
  split at hok
  · simp at hok
  rename_i mod_props hmod
  simp only [Prod.mk.injEq, Except.ok.injEq, Option.some.injEq] at hok
  obtain ⟨hbo, _⟩ := hok
  subst hbo
  exact ⟨format_props, committed, mod_props, rfl, hcommitted, hmod, rfl, rfl⟩

/-! ## Accessors -/

theorem size_t_of_int_of_nonneg (plane : Int) (h0 : 0 ≤ plane) (hint : plane < 2 ^ 31) :
    size_t_of_int plane = plane.toNat := by
  unfold size_t_of_int
  rw [Int.emod_eq_of_lt h0 (by omega)]

/-- C4: for a plane index at or beyond `plane_cnt`, `gbm_vulkan_bo_get_offset` and
`gbm_vulkan_bo_get_stride` return `0`, `gbm_vulkan_bo_get_plane_fd` returns `-1` and
`gbm_vulkan_bo_get_handle_for_plane` the all-zero handle; none of them calls the device
and none of them stops on a fault. -/
theorem accessors_sentinel_beyond_plane_cnt (dev : gbm_vulkan_device) (bo : gbm_vulkan_bo)
    (bo_ptr : Nat) (plane : Int) (hge : (bo.plane_cnt : Int) ≤ plane) (hint : plane < 2 ^ 31) :
    gbm_vulkan_bo_get_offset dev bo plane = (.ok 0, [])
    ∧ gbm_vulkan_bo_get_stride dev bo plane = (.ok 0, [])
    ∧ gbm_vulkan_bo_get_plane_fd dev bo plane = (-1, [])
    ∧ gbm_vulkan_bo_get_handle_for_plane bo_ptr bo plane = 0 := by
  have hsz : size_t_of_int plane ≥ bo.plane_cnt := by
    rw [size_t_of_int_of_nonneg plane (by omega) hint]
    omega
  simp [gbm_vulkan_bo_get_offset, gbm_vulkan_bo_get_stride, gbm_vulkan_bo_get_plane_fd,
    gbm_vulkan_bo_get_handle_for_plane, hsz]

/-- C4, for a one-plane object on the example device and plane index 1. -/
theorem accessors_sentinel_beyond_plane_cnt_witness :
    gbm_vulkan_bo_get_offset example_device
        { width := 64, height := 64, format := DRM_FORMAT_XRGB8888, image := 1, memory := 2,
          modifier := 0, plane_cnt := 1 } 1 = (.ok 0, [])
    ∧ gbm_vulkan_bo_get_stride example_device
        { width := 64, height := 64, format := DRM_FORMAT_XRGB8888, image := 1, memory := 2,
          modifier := 0, plane_cnt := 1 } 1 = (.ok 0, [])
    ∧ gbm_vulkan_bo_get_plane_fd example_device
        { width := 64, height := 64, format := DRM_FORMAT_XRGB8888, image := 1, memory := 2,
          modifier := 0, plane_cnt := 1 } 1 = (-1, [])
    ∧ gbm_vulkan_bo_get_handle_for_plane 4096
        { width := 64, height := 64, format := DRM_FORMAT_XRGB8888, image := 1, memory := 2,
          modifier := 0, plane_cnt := 1 } 1 = 0 :=
  accessors_sentinel_beyond_plane_cnt example_device
    { width := 64, height := 64, format := DRM_FORMAT_XRGB8888, image := 1, memory := 2,
      modifier := 0, plane_cnt := 1 } 4096 1 (by decide) (by decide)

/-! ## Query callbacks -/

/-- C5, the code at the failing input: the capability table has an entry for
`DRM_FORMAT_XRGB8888`, the canonical form of `GBM_BO_FORMAT_XRGB8888`, and the usage has
neither the write nor the protected bit, yet `gbm_vulkan_is_format_supported` answers
`0` for `GBM_BO_FORMAT_XRGB8888`, because it looks the code up as it is given, while
`gbm_vulkan_bo_create` canonicalizes the same code and creates the buffer. -/
theorem is_format_supported_misses_canonicalize :
    GBM_BO_USE_RENDERING &&& GBM_BO_USE_WRITE = 0
    ∧ GBM_BO_USE_RENDERING &&& GBM_BO_USE_PROTECTED = 0
    ∧ vulkan_format_props_from_drm example_device
        (core_format_canonicalize GBM_BO_FORMAT_XRGB8888) = some example_format_props
    ∧ gbm_vulkan_is_format_supported example_device GBM_BO_FORMAT_XRGB8888
        GBM_BO_USE_RENDERING = 0
    ∧ gbm_vulkan_is_format_supported example_device
        (core_format_canonicalize GBM_BO_FORMAT_XRGB8888) GBM_BO_USE_RENDERING = 1
    ∧ ∃ bo, (gbm_vulkan_bo_create core_format_canonicalize true example_device 1920 1080
        GBM_BO_FORMAT_XRGB8888 GBM_BO_USE_RENDERING [0]).1 = .ok (some bo) :=
  ⟨by decide, by decide, by decide, by decide, by decide, _, rfl⟩

/-- C6, the code where the format has no capability entry: the lookup of the format
gives `NULL`, `vulkan_format_props_find_modifier` reads a count through it, and the run
stops on the dereference instead of returning `0`. -/
theorem get_format_modifier_plane_count_null_deref (dev : gbm_vulkan_device)
    (format modifier : Nat) (hnone : vulkan_format_props_from_drm dev format = none) :
    gbm_vulkan_get_format_modifier_plane_count dev format modifier
      = .error Fault.null_deref := by
  simp [gbm_vulkan_get_format_modifier_plane_count, vulkan_format_props_find_modifier_ptr, hnone]

/-- C6, on the example device, whose table has no entry for `DRM_FORMAT_ARGB8888`. -/
theorem get_format_modifier_plane_count_null_deref_witness :
    vulkan_format_props_from_drm example_device DRM_FORMAT_ARGB8888 = none
    ∧ gbm_vulkan_get_format_modifier_plane_count example_device DRM_FORMAT_ARGB8888
        DRM_FORMAT_MOD_LINEAR = .error Fault.null_deref :=
  ⟨by decide, get_format_modifier_plane_count_null_deref example_device DRM_FORMAT_ARGB8888
    DRM_FORMAT_MOD_LINEAR (by decide)⟩

/-! ## Selection of the physical device -/

theorem check_extension_iff_mem (avail : List String) (name : String) :
    check_extension avail name = true ↔ name ∈ avail := by
  induction avail with
  | nil => simp [check_extension]
  | cons e rest ih =>
    rw [check_extension]
    by_cases h : e = name
    · simp [h]
    · have h' : ¬ name = e := fun hne => h hne.symm
      simp [h, h', ih]

/-- One turn of the selection loop on a device that is not taken. -/
theorem select_loop_skip (makedev : Int → Int → Nat) (st_rdev : Nat) (phdev : VkPhysicalDevice)
    (rest : List VkPhysicalDevice) (idx : Nat) (chosen : Int)
    (h : chosen ≠ -1 ∨
      ¬ (advertises_drm_extension phdev ∧ node_identity_matches makedev st_rdev phdev)) :
    vulkan_select_physical_device_loop makedev st_rdev (phdev :: rest) idx chosen =
      vulkan_select_physical_device_loop makedev st_rdev rest (idx + 1) chosen := by
  rw [vulkan_select_physical_device_loop]
  cases hc : phdev.extensionCount with
  | none => rfl
  | some avail_extc =>
    simp only []
    by_cases h0 : avail_extc = 0
    · simp [h0]
    · simp only [h0, if_false]
      cases hp : phdev.extensionProperties with
      | none => rfl
      | some avail_ext_props =>
        simp only []
        by_cases hx : check_extension avail_ext_props VK_EXT_PHYSICAL_DEVICE_DRM_EXTENSION_NAME = false
        · simp [hx]
        · simp only [hx, if_false]
          by_cases hch : chosen ≠ -1
          · simp [hch]
          · simp only [hch, if_false]
            by_cases hid : makedev phdev.primaryMajor phdev.primaryMinor = st_rdev
                ∨ makedev phdev.renderMajor phdev.renderMinor = st_rdev
            · exfalso
              rcases h with h | h
              · exact hch h
              · apply h
                refine ⟨⟨avail_extc, avail_ext_props, hc, h0, hp, ?_⟩, hid⟩
                apply (check_extension_iff_mem _ _).mp
                simpa using hx
            · simp [hid]

/-- One turn of the selection loop on the device that is taken. -/
theorem select_loop_take (makedev : Int → Int → Nat) (st_rdev : Nat) (phdev : VkPhysicalDevice)
    (rest : List VkPhysicalDevice) (idx : Nat)
    (hadv : advertises_drm_extension phdev)
    (hid : node_identity_matches makedev st_rdev phdev) :
    vulkan_select_physical_device_loop makedev st_rdev (phdev :: rest) idx (-1) =
      vulkan_select_physical_device_loop makedev st_rdev rest (idx + 1) (int_of_uint32 idx) := by
  obtain ⟨avail_extc, avail_ext_props, hc, h0, hp, hmem⟩ := hadv
  have hx : check_extension avail_ext_props VK_EXT_PHYSICAL_DEVICE_DRM_EXTENSION_NAME = true :=
    (check_extension_iff_mem _ _).mpr hmem
  unfold node_identity_matches at hid
  rw [vulkan_select_physical_device_loop]
  simp [hc, h0, hp, hx, hid]

theorem select_loop_chosen (makedev : Int → Int → Nat) (st_rdev : Nat)
    (phdevs : List VkPhysicalDevice) (idx : Nat) (chosen : Int) (h : chosen ≠ -1) :
    vulkan_select_physical_device_loop makedev st_rdev phdevs idx chosen = chosen := by
  induction phdevs generalizing idx with
  | nil => rfl
  | cons phdev rest ih => rw [select_loop_skip _ _ _ _ _ _ (Or.inl h), ih]

theorem select_loop_none (makedev : Int → Int → Nat) (st_rdev : Nat)
    (phdevs : List VkPhysicalDevice) (idx : Nat)
    (h : ∀ d ∈ phdevs,
      ¬ (advertises_drm_extension d ∧ node_identity_matches makedev st_rdev d)) :
    vulkan_select_physical_device_loop makedev st_rdev phdevs idx (-1) = -1 := by
  induction phdevs generalizing idx with
  | nil => rfl
  | cons phdev rest ih =>
    rw [select_loop_skip _ _ _ _ _ _ (Or.inr (h phdev (List.mem_cons_self _ _)))]
    exact ih _ (fun d hd => h d (List.mem_cons_of_mem _ hd))

theorem int_of_uint32_of_lt (v : Nat) (h : v < 2 ^ 31) : int_of_uint32 v = (v : Int) := by
  unfold int_of_uint32
  have hm : v % 2 ^ 32 = v := Nat.mod_eq_of_lt (by omega)
  rw [hm, if_pos h]

theorem select_loop_first (makedev : Int → Int → Nat) (st_rdev : Nat)
    (pre : List VkPhysicalDevice) (d : VkPhysicalDevice) (post : List VkPhysicalDevice)
    (idx : Nat)
    (hpre : ∀ x ∈ pre,
      ¬ (advertises_drm_extension x ∧ node_identity_matches makedev st_rdev x))
    (hd : advertises_drm_extension d ∧ node_identity_matches makedev st_rdev d)
    (hlt : idx + pre.length < 2 ^ 31) :
    vulkan_select_physical_device_loop makedev st_rdev (pre ++ d :: post) idx (-1) =
      ((idx + pre.length : Nat) : Int) := by
  induction pre generalizing idx with
  | nil =>
    simp only [List.nil_append, List.length_nil, Nat.add_zero] at hlt ⊢
    rw [select_loop_take _ _ _ _ _ hd.1 hd.2, int_of_uint32_of_lt idx hlt]
    apply select_loop_chosen
    omega
  | cons x rest ih =>
    simp only [List.cons_append, List.length_cons] at hlt ⊢
    rw [select_loop_skip _ _ _ _ _ _ (Or.inr (hpre x (List.mem_cons_self _ _)))]
    rw [ih (idx + 1) (fun y hy => hpre y (List.mem_cons_of_mem _ hy)) (by omega)]
    congr 1
    omega

theorem first_match_split {α : Type} (P : α → Prop) (l : List α) :
    (∀ x ∈ l, ¬ P x) ∨
      ∃ pre d post, l = pre ++ d :: post ∧ (∀ x ∈ pre, ¬ P x) ∧ P d := by
  induction l with
  | nil => left; simp
  | cons a rest ih =>
    by_cases ha : P a
    · right; exact ⟨[], a, rest, rfl, by simp, ha⟩
    · rcases ih with h | ⟨pre, d, post, hl, hpre, hd⟩
      · left
        intro x hx
        rcases List.mem_cons.mp hx with hx | hx
        · rw [hx]; exact ha
        · exact h x hx
      · right
        refine ⟨a :: pre, d, post, by rw [hl]; rfl, ?_, hd⟩
        intro x hx
        rcases List.mem_cons.mp hx with hx | hx
        · rw [hx]; exact ha
        · exact hpre x hx

/-- C7: on a list of at most `2^31` enumerated devices and a target identity,
`vulkan_select_physical_device` returns without fault; it returns `VK_NULL_HANDLE`
exactly when no device both advertises the DRM properties extension and has its primary
or render node identity equal to the target; and a device it returns is such a device,
at an index below which no device is one (so no later device overrides it). -/
theorem select_physical_device_first_match (makedev : Int → Int → Nat) (st_rdev : Nat)
    (phdevs : List VkPhysicalDevice) (hlen : phdevs.length ≤ 2 ^ 31) :
    ∃ r, vulkan_select_physical_device makedev (some st_rdev) phdevs = .ok r
      ∧ (r = none ↔ ∀ d ∈ phdevs,
          ¬ (advertises_drm_extension d ∧ node_identity_matches makedev st_rdev d))
      ∧ ∀ d, r = some d →
          ∃ i : Nat, phdevs[i]? = some d
            ∧ advertises_drm_extension d ∧ node_identity_matches makedev st_rdev d
            ∧ ∀ j : Nat, j < i → ∀ e, phdevs[j]? = some e →
                ¬ (advertises_drm_extension e ∧ node_identity_matches makedev st_rdev e) := by
  rcases first_match_split
      (fun d => advertises_drm_extension d ∧ node_identity_matches makedev st_rdev d) phdevs with
    hnone | ⟨pre, d, post, hl, hpre, hd⟩
  · refine ⟨none, ?_, ?_, ?_⟩
    · unfold vulkan_select_physical_device
      simp only [select_loop_none makedev st_rdev phdevs 0 hnone]
      simp
    · simp only [true_iff]
      exact hnone
    · intro d hd
      cases hd
  · have hlt : 0 + pre.length < 2 ^ 31 := by
      have : (pre ++ d :: post).length ≤ 2 ^ 31 := hl ▸ hlen
      simp only [List.length_append, List.length_cons] at this
      omega
    have hget : phdevs[pre.length]? = some d := by
      rw [hl, List.getElem?_append_right (Nat.le_refl _)]
      simp
    refine ⟨some d, ?_, ?_, ?_⟩
    · unfold vulkan_select_physical_device
      have hloop := select_loop_first makedev st_rdev pre d post 0 hpre hd hlt
      rw [← hl] at hloop
      have hne : phdevs.length ≠ 0 := by
        rw [hl]; simp
      simp only [hloop, hne, if_false, Nat.zero_add]
      have h1 : ((pre.length : Nat) : Int) ≠ -1 := by omega
      have h2 : ¬ ((pre.length : Nat) : Int) < 0 := by omega
      simp only [h1, h2, ne_eq, not_false_eq_true, if_true, if_false, Int.toNat_ofNat, hget]
    · constructor
      · intro h; cases h
      · intro h
        exfalso
        apply h d _ hd
        rw [hl]
        simp
    · intro d' hd'
      cases hd'
      refine ⟨pre.length, hget, hd.1, hd.2, ?_⟩
      intro j hj e he
      apply hpre e
      rw [hl, List.getElem?_append_left hj] at he
      exact List.getElem?_mem he

/-- C7, on three devices of which the second and the third are at the target node
226:128: the second is returned. -/
theorem select_physical_device_first_match_witness :
    [{ example_physical_device with extensionProperties := some ["VK_KHR_swapchain"] },
     example_physical_device,
     { example_physical_device with memoryTypes := [] }].length ≤ 2 ^ 31
    ∧ vulkan_select_physical_device gnu_dev_makedev (some 57984)
        [{ example_physical_device with extensionProperties := some ["VK_KHR_swapchain"] },
         example_physical_device,
         { example_physical_device with memoryTypes := [] }] = .ok (some example_physical_device)
    ∧ ∃ r, vulkan_select_physical_device gnu_dev_makedev (some 57984)
        [{ example_physical_device with extensionProperties := some ["VK_KHR_swapchain"] },
         example_physical_device,
         { example_physical_device with memoryTypes := [] }] = .ok r
      ∧ (r = none ↔ ∀ d ∈
          [{ example_physical_device with extensionProperties := some ["VK_KHR_swapchain"] },
           example_physical_device,
           { example_physical_device with memoryTypes := [] }],
          ¬ (advertises_drm_extension d ∧ node_identity_matches gnu_dev_makedev 57984 d))
      ∧ ∀ d, r = some d →
          ∃ i : Nat, [{ example_physical_device with extensionProperties := some ["VK_KHR_swapchain"] },
                example_physical_device,
                { example_physical_device with memoryTypes := [] }][i]? = some d
            ∧ advertises_drm_extension d ∧ node_identity_matches gnu_dev_makedev 57984 d
            ∧ ∀ j : Nat, j < i → ∀ e,
                [{ example_physical_device with extensionProperties := some ["VK_KHR_swapchain"] },
                 example_physical_device,
                 { example_physical_device with memoryTypes := [] }][j]? = some e →
                ¬ (advertises_drm_extension e ∧ node_identity_matches gnu_dev_makedev 57984 e) :=
  ⟨by decide, rfl, select_physical_device_first_match gnu_dev_makedev 57984 _ (by decide)⟩

/-! ## Probing of the modifiers -/

theorem query_modifier_usage_support_props (phdev : VkPhysicalDevice)
    (vk_format vk_format_variant usage : Nat) (m : VkDrmFormatModifierPropertiesEXT)
    (p : vulkan_format_modifier_props)
    (h : query_modifier_usage_support phdev vk_format vk_format_variant usage m = some p) :
    p.props = m := by
  unfold query_modifier_usage_support at h
  simp only [] at h
  split at h
  · cases h
  · split at h
    · cases h
    · cases h
      rfl

theorem query_modifier_support_test_props (phdev : VkPhysicalDevice) (format : vulkan_format)
    (usage : Nat) (m : VkDrmFormatModifierPropertiesEXT) (p : vulkan_format_modifier_props)
    (h : query_modifier_support_test phdev format usage m = some p) : p.props = m := by
  unfold query_modifier_support_test at h
  split at h
  · rename_i q hq
    cases h
    exact query_modifier_usage_support_props _ _ _ _ _ _ hq
  · split at h
    · exact query_modifier_usage_support_props _ _ _ _ _ _ h
    · cases h

/-- The loop of `query_modifier_support` appends, in the order of the modifiers, what
the two halves of each turn give, and raises `found` when anything is appended. -/
theorem query_modifier_support_loop_eq (phdev : VkPhysicalDevice)
    (mods : List VkDrmFormatModifierPropertiesEXT) (props : vulkan_format_props)
    (found : Bool) :
    query_modifier_support_loop phdev mods props found =
      ({ format := props.format
         render_mods := props.render_mods ++ mods.filterMap (render_probe phdev props.format)
         texture_mods := props.texture_mods ++ mods.filterMap (texture_probe phdev props.format) },
       found || !(mods.filterMap (render_probe phdev props.format)).isEmpty
         || !(mods.filterMap (texture_probe phdev props.format)).isEmpty) := by
  induction mods generalizing props found with
  | nil => simp [query_modifier_support_loop]
  | cons m rest ih =>
    rw [query_modifier_support_loop]
    simp only [ih]
    by_cases hr : m.drmFormatModifierTilingFeatures &&& render_features = render_features <;>
    by_cases ht : m.drmFormatModifierTilingFeatures &&& dma_tex_features = dma_tex_features <;>
    cases hrt : query_modifier_support_test phdev props.format vulkan_render_usage m <;>
    cases htt : query_modifier_support_test phdev props.format vulkan_dma_tex_usage m <;>
    simp [render_probe, texture_probe, hr, ht, hrt, htt, List.filterMap_cons]

theorem query_modifier_support_of_callocs_succeed (phdev : VkPhysicalDevice)
    (props : vulkan_format_props) (modifier_count : Nat) :
    query_modifier_support phdev callocs_succeed props modifier_count =
      query_modifier_support_loop phdev
        ((phdev.drmFormatModifierProperties props.format.vk).take modifier_count) props false := by
  simp [query_modifier_support, callocs_succeed]

/-- What `query_modifier_support` leaves in fresh `props`: nothing and `false` when an
allocation fails, the outcome of the loop otherwise. -/
theorem query_modifier_support_cases (phdev : VkPhysicalDevice) (callocs : query_callocs)
    (format : vulkan_format) (modifier_count : Nat) :
    query_modifier_support phdev callocs
        { format := format, render_mods := [], texture_mods := [] } modifier_count =
      ({ format := format, render_mods := [], texture_mods := [] }, false)
    ∨ query_modifier_support phdev callocs
        { format := format, render_mods := [], texture_mods := [] } modifier_count =
      query_modifier_support_loop phdev
        ((phdev.drmFormatModifierProperties format.vk).take modifier_count)
        { format := format, render_mods := [], texture_mods := [] } false := by
  rcases callocs with ⟨a, b, c⟩
  cases a <;> cases b <;> cases c <;> simp [query_modifier_support]

/-- When `query_modifier_support` returns `true` on fresh `props`, one of the two lists
it leaves is not empty. -/
theorem query_modifier_support_found (phdev : VkPhysicalDevice) (callocs : query_callocs)
    (format : vulkan_format) (modifier_count : Nat)
    (h : (query_modifier_support phdev callocs
      { format := format, render_mods := [], texture_mods := [] } modifier_count).2 = true) :
    (query_modifier_support phdev callocs
      { format := format, render_mods := [], texture_mods := [] } modifier_count).1.render_mods ≠ []
    ∨ (query_modifier_support phdev callocs
      { format := format, render_mods := [], texture_mods := [] } modifier_count).1.texture_mods
        ≠ [] := by
  rcases query_modifier_support_cases phdev callocs format modifier_count with hc | hc
  · rw [hc] at h
    cases h
  · rw [hc] at h ⊢
    rw [query_modifier_support_loop_eq] at h ⊢
    simp only [List.nil_append, Bool.false_or, Bool.or_eq_true, Bool.not_eq_true',
      List.isEmpty_eq_false] at h ⊢
    simpa [List.isEmpty_iff] using h

theorem format_props_query_keeps_invariant (callocs : query_callocs) (dev : gbm_vulkan_device)
    (phdev : VkPhysicalDevice) (format : vulkan_format)
    (hinv : ∀ e ∈ dev.format_props, e.render_mods ≠ [] ∨ e.texture_mods ≠ []) :
    ∀ e ∈ (vulkan_format_props_query callocs dev phdev format).format_props,
      e.render_mods ≠ [] ∨ e.texture_mods ≠ [] := by
  intro e he
  unfold vulkan_format_props_query at he
  simp only [] at he
  split at he
  · split at he
    · rename_i hfound
      rcases List.mem_append.mp he with he | he
      · exact hinv e he
      · rw [List.mem_singleton.mp he]
        exact query_modifier_support_found phdev callocs format _ hfound
    · exact hinv e he
  · exact hinv e he

theorem device_create_loop_keeps_invariant (callocs : Nat → query_callocs)
    (formats : List vulkan_format) (i : Nat) (vulkan : gbm_vulkan_device)
    (hinv : ∀ e ∈ vulkan.format_props, e.render_mods ≠ [] ∨ e.texture_mods ≠ []) :
    ∀ e ∈ (vulkan_device_create_loop callocs formats i vulkan).format_props,
      e.render_mods ≠ [] ∨ e.texture_mods ≠ [] := by
  induction formats generalizing i vulkan with
  | nil => exact hinv
  | cons format rest ih =>
    rw [vulkan_device_create_loop]
    exact ih _ _ (format_props_query_keeps_invariant _ _ _ _ hinv)

/-- C8: in the capability table that the probing loop of `vulkan_device_create` builds
from the empty table, over any sequence of formats and any allocation outcomes, every
entry has a non-empty `render_mods` or a non-empty `texture_mods`; and
`vulkan_format_props_query` leaves the device, its table included, as it is when the
device reports no modifier for the format or when both lists come out empty. -/
theorem capability_table_entries_have_a_modifier (callocs : Nat → query_callocs)
    (formats : List vulkan_format) (physical_device : VkPhysicalDevice) (device : VkDevice) :
    (∀ e ∈ (vulkan_device_create_loop callocs formats 0
        { physical_device := physical_device, device := device, format_props := [] }).format_props,
      e.render_mods ≠ [] ∨ e.texture_mods ≠ [])
    ∧ ∀ (c : query_callocs) (dev : gbm_vulkan_device) (phdev : VkPhysicalDevice)
        (format : vulkan_format),
        (phdev.drmFormatModifierProperties format.vk = []
          ∨ ((query_modifier_support phdev c
                { format := format, render_mods := [], texture_mods := [] }
                (phdev.drmFormatModifierProperties format.vk).length).1.render_mods = []
             ∧ (query_modifier_support phdev c
                { format := format, render_mods := [], texture_mods := [] }
                (phdev.drmFormatModifierProperties format.vk).length).1.texture_mods = [])) →
        (vulkan_format_props_query c dev phdev format).format_props = dev.format_props := by
  constructor
  · apply device_create_loop_keeps_invariant
    intro e he
    cases he
  · intro c dev phdev format h
    unfold vulkan_format_props_query
    simp only []
    split
    · split
      · rename_i hpos hfound
        exfalso
        rcases h with h | ⟨h1, h2⟩
        · rw [h] at hpos
          simp at hpos
        · rcases query_modifier_support_found phdev c format _ hfound with h' | h'
          · exact h' h1
          · exact h' h2
      · rfl
    · rfl

/-- C8, on the probing example: the format the device has modifiers for gets an entry
with a modifier, and the format it has none for leaves the table as it is. -/
theorem capability_table_entries_have_a_modifier_witness :
    (vulkan_device_create_loop (fun _ => callocs_succeed)
        [example_format, { drm := DRM_FORMAT_ARGB8888, vk := 37, vk_srgb := 0 }] 0
        { physical_device := example_probing_device, device := example_logical_device,
          format_props := [] }).format_props.length = 1
    ∧ (∀ e ∈ (vulkan_device_create_loop (fun _ => callocs_succeed)
        [example_format, { drm := DRM_FORMAT_ARGB8888, vk := 37, vk_srgb := 0 }] 0
        { physical_device := example_probing_device, device := example_logical_device,
          format_props := [] }).format_props,
      e.render_mods ≠ [] ∨ e.texture_mods ≠ [])
    ∧ (vulkan_format_props_query callocs_succeed example_device example_probing_device
        { drm := DRM_FORMAT_ARGB8888, vk := 37, vk_srgb := 0 }).format_props
        = example_device.format_props :=
  ⟨by decide,
   (capability_table_entries_have_a_modifier (fun _ => callocs_succeed)
      [example_format, { drm := DRM_FORMAT_ARGB8888, vk := 37, vk_srgb := 0 }]
      example_probing_device example_logical_device).1,
   (capability_table_entries_have_a_modifier (fun _ => callocs_succeed)
      [example_format, { drm := DRM_FORMAT_ARGB8888, vk := 37, vk_srgb := 0 }]
      example_probing_device example_logical_device).2 callocs_succeed example_device
      example_probing_device { drm := DRM_FORMAT_ARGB8888, vk := 37, vk_srgb := 0 }
      (Or.inl (by decide))⟩

theorem render_probe_test (phdev : VkPhysicalDevice) (format : vulkan_format)
    (m : VkDrmFormatModifierPropertiesEXT) (p : vulkan_format_modifier_props)
    (h : render_probe phdev format m = some p) :
    query_modifier_support_test phdev format vulkan_render_usage p.props = some p := by
  unfold render_probe at h
  split at h
  · rw [query_modifier_support_test_props _ _ _ _ _ h]
    exact h
  · cases h

theorem texture_probe_test (phdev : VkPhysicalDevice) (format : vulkan_format)
    (m : VkDrmFormatModifierPropertiesEXT) (p : vulkan_format_modifier_props)
    (h : texture_probe phdev format m = some p) :
    query_modifier_support_test phdev format vulkan_dma_tex_usage p.props = some p := by
  unfold texture_probe at h
  split at h
  · rw [query_modifier_support_test_props _ _ _ _ _ h]
    exact h
  · cases h

/-- C9: for every entry `p` that `query_modifier_support` records in `render_mods`
(respectively `texture_mods`) of fresh `props`, running the usage-support test again for
the same format and the recorded modifier under the render (respectively texture) usage,
against the same device answers, is `supported` and gives `p` itself, so the recorded
max extent is the one that test returns. -/
theorem recorded_modifiers_pass_the_test_again (phdev : VkPhysicalDevice)
    (callocs : query_callocs) (format : vulkan_format) (modifier_count : Nat) :
    (∀ p ∈ (query_modifier_support phdev callocs
          { format := format, render_mods := [], texture_mods := [] } modifier_count).1.render_mods,
        query_modifier_support_test phdev format vulkan_render_usage p.props = some p)
    ∧ (∀ p ∈ (query_modifier_support phdev callocs
          { format := format, render_mods := [], texture_mods := [] } modifier_count).1.texture_mods,
        query_modifier_support_test phdev format vulkan_dma_tex_usage p.props = some p) := by
  rcases query_modifier_support_cases phdev callocs format modifier_count with hc | hc
  · rw [hc]
    simp
  · rw [hc, query_modifier_support_loop_eq]
    simp only [List.nil_append]
    constructor
    · intro p hp
      obtain ⟨m, _, hm⟩ := List.mem_filterMap.mp hp
      exact render_probe_test phdev format m p hm
    · intro p hp
      obtain ⟨m, _, hm⟩ := List.mem_filterMap.mp hp
      exact texture_probe_test phdev format m p hm

/-- C9, on the probing example: modifier 7, recorded for rendering through the retry
without the sRGB alternate, passes the test again with the recorded 8192x8192 extent. -/
theorem recorded_modifiers_pass_the_test_again_witness :
    ({ props := { drmFormatModifier := 7, drmFormatModifierPlaneCount := 2,
                  drmFormatModifierTilingFeatures := 0x181 }
       max_extent := { width := 8192, height := 8192 } } : vulkan_format_modifier_props)
      ∈ (query_modifier_support example_probing_device callocs_succeed
          { format := example_format, render_mods := [], texture_mods := [] } 4).1.render_mods
    ∧ query_modifier_support_test example_probing_device example_format vulkan_render_usage
        { drmFormatModifier := 7, drmFormatModifierPlaneCount := 2,
          drmFormatModifierTilingFeatures := 0x181 }
      = some { props := { drmFormatModifier := 7, drmFormatModifierPlaneCount := 2,
                          drmFormatModifierTilingFeatures := 0x181 }
               max_extent := { width := 8192, height := 8192 } } :=
  ⟨by decide,
   (recorded_modifiers_pass_the_test_again example_probing_device callocs_succeed
      example_format 4).1
     { props := { drmFormatModifier := 7, drmFormatModifierPlaneCount := 2,
                  drmFormatModifierTilingFeatures := 0x181 }
       max_extent := { width := 8192, height := 8192 } } (by decide)⟩

theorem map_props_filterMap (f : VkDrmFormatModifierPropertiesEXT → Option vulkan_format_modifier_props)
    (hf : ∀ m p, f m = some p → p.props = m) (mods : List VkDrmFormatModifierPropertiesEXT) :
    (mods.filterMap f).map (fun p => p.props) = mods.filter (fun m => (f m).isSome) := by
  induction mods with
  | nil => rfl
  | cons m rest ih =>
    cases hm : f m with
    | none => simp [List.filterMap_cons, List.filter_cons, hm, ih]
    | some p => simp [List.filterMap_cons, List.filter_cons, hm, ih, hf m p hm]

/-- C10 as stated fails on the probing example: modifier 9, which the device reports
without the blend feature, is usable under the render usage (the query succeeds and
reports the importable capability), yet `query_modifier_support` does not append it to
`render_mods`. -/
theorem usable_modifier_not_appended :
    ({ drmFormatModifier := 9, drmFormatModifierPlaneCount := 3,
       drmFormatModifierTilingFeatures := 0x81 } : VkDrmFormatModifierPropertiesEXT)
      ∈ example_probing_device.drmFormatModifierProperties example_format.vk
    ∧ modifier_usable example_probing_device example_format vulkan_render_usage
        { drmFormatModifier := 9, drmFormatModifierPlaneCount := 3,
          drmFormatModifierTilingFeatures := 0x81 } = true
    ∧ ¬ ∃ p ∈ (query_modifier_support example_probing_device callocs_succeed
          { format := example_format, render_mods := [], texture_mods := [] } 4).1.render_mods,
        p.props.drmFormatModifier = 9 := by
  decide

/-- The importable test `externalMemoryFeatures & 0x4` of the code reads bit 2. -/
theorem importable_bit_eq_testBit (features : Nat) :
    (features &&& VK_EXTERNAL_MEMORY_FEATURE_IMPORTABLE_BIT = 0) ↔ features.testBit 2 = false := by
  have h := Nat.and_two_pow features 2
  norm_num at h
  rw [VK_EXTERNAL_MEMORY_FEATURE_IMPORTABLE_BIT, h]
  cases features.testBit 2 <;> simp

/-- The function `query_modifier_usage_support` answers `true` exactly when the device
answers the query of the specification with the importable capability. -/
theorem query_modifier_usage_support_isSome (phdev : VkPhysicalDevice)
    (vk_format vk_format_variant usage : Nat) (m : VkDrmFormatModifierPropertiesEXT) :
    (query_modifier_usage_support phdev vk_format vk_format_variant usage m).isSome =
      importable_under phdev vk_format usage m.drmFormatModifier
        (if vk_format_variant ≠ 0 then some vk_format_variant else none) := by
  have hquery :
      ({ format := vk_format
         usage := usage
         flags := if vk_format_variant ≠ 0 then VK_IMAGE_CREATE_MUTABLE_FORMAT_BIT else 0
         tiling := VK_IMAGE_TILING_DRM_FORMAT_MODIFIER_EXT
         handleType := VK_EXTERNAL_MEMORY_HANDLE_TYPE_DMA_BUF_BIT_EXT
         drmFormatModifier := m.drmFormatModifier
         viewFormats :=
           if vk_format_variant ≠ 0 then [vk_format, vk_format_variant] else [vk_format] } :
        VkPhysicalDeviceImageFormatInfo2) =
      external_image_query vk_format usage m.drmFormatModifier
        (if vk_format_variant ≠ 0 then some vk_format_variant else none) := by
    by_cases hv : vk_format_variant ≠ 0
    · rw [if_pos hv, if_pos hv, if_pos hv]
      rfl
    · rw [if_neg hv, if_neg hv, if_neg hv]
      rfl
  unfold query_modifier_usage_support importable_under
  simp only [hquery]
  cases hq : phdev.imageFormatProperties2 (external_image_query vk_format usage
      m.drmFormatModifier (if vk_format_variant ≠ 0 then some vk_format_variant else none)) with
  | none => rfl
  | some answer =>
    simp only []
    by_cases hbit : answer.externalMemoryFeatures &&& VK_EXTERNAL_MEMORY_FEATURE_IMPORTABLE_BIT = 0
    · rw [if_pos hbit, (importable_bit_eq_testBit _).mp hbit]
      rfl
    · rw [if_neg hbit]
      have hset : answer.externalMemoryFeatures.testBit 2 = true := by
        cases hb : answer.externalMemoryFeatures.testBit 2
        · exact absurd ((importable_bit_eq_testBit _).mpr hb) hbit
        · rfl
      rw [hset]
      rfl

/-- The two-step test of the loop answers `supported` exactly for the modifiers that are
usable in the words of the specification. -/
theorem query_modifier_support_test_isSome (phdev : VkPhysicalDevice) (format : vulkan_format)
    (usage : Nat) (m : VkDrmFormatModifierPropertiesEXT) :
    (query_modifier_support_test phdev format usage m).isSome =
      modifier_usable phdev format usage m := by
  have h1 := query_modifier_usage_support_isSome phdev format.vk format.vk_srgb usage m
  have h2 := query_modifier_usage_support_isSome phdev format.vk 0 usage m
  simp only [ne_eq, not_true_eq_false, if_false] at h2
  unfold query_modifier_support_test modifier_usable
  by_cases hs : format.vk_srgb ≠ 0
  · rw [if_pos hs] at h1
    have hs' : (format.vk_srgb != 0) = true := by simpa using hs
    rw [hs', Bool.true_and, ← h1, ← h2]
    cases hq : query_modifier_usage_support phdev format.vk format.vk_srgb usage m with
    | none => simp [hs]
    | some p => simp
  · rw [if_neg hs] at h1
    have hs' : (format.vk_srgb != 0) = false := by simpa using hs
    rw [hs', Bool.false_and, Bool.false_or, ← h1]
    cases hq : query_modifier_usage_support phdev format.vk format.vk_srgb usage m with
    | none => simp [hs]
    | some p => simp

/-- C10, amended: when its three allocations succeed, `query_modifier_support` leaves in
`render_mods` of fresh `props`, in the reporting order, exactly the modifiers the device
reports into the array of `modifier_count` entries whose tiling features include all of
`render_features` and that are usable under the render usage, and in `texture_mods`
exactly those whose tiling features include `dma_tex_features` and that are usable under
the texture usage.  Usable is `modifier_usable`, said of the answers of the device. -/
theorem appended_iff_features_and_usable (phdev : VkPhysicalDevice) (format : vulkan_format)
    (modifier_count : Nat) :
    (query_modifier_support phdev callocs_succeed
        { format := format, render_mods := [], texture_mods := [] }
        modifier_count).1.render_mods.map (fun p => p.props) =
      ((phdev.drmFormatModifierProperties format.vk).take modifier_count).filter (fun m =>
        decide (m.drmFormatModifierTilingFeatures &&& render_features = render_features)
          && modifier_usable phdev format vulkan_render_usage m)
    ∧ (query_modifier_support phdev callocs_succeed
        { format := format, render_mods := [], texture_mods := [] }
        modifier_count).1.texture_mods.map (fun p => p.props) =
      ((phdev.drmFormatModifierProperties format.vk).take modifier_count).filter (fun m =>
        decide (m.drmFormatModifierTilingFeatures &&& dma_tex_features = dma_tex_features)
          && modifier_usable phdev format vulkan_dma_tex_usage m) := by
  rw [query_modifier_support_of_callocs_succeed, query_modifier_support_loop_eq]
  simp only [List.nil_append]
  constructor
  · rw [map_props_filterMap _ (fun m p h => by
      unfold render_probe at h
      split at h
      · exact query_modifier_support_test_props _ _ _ _ _ h
      · cases h)]
    congr 1
    funext m
    rw [← query_modifier_support_test_isSome]
    unfold render_probe
    by_cases hg : m.drmFormatModifierTilingFeatures &&& render_features = render_features <;>
      simp [hg]
  · rw [map_props_filterMap _ (fun m p h => by
      unfold texture_probe at h
      split at h
      · exact query_modifier_support_test_props _ _ _ _ _ h
      · cases h)]
    congr 1
    funext m
    rw [← query_modifier_support_test_isSome]
    unfold texture_probe
    by_cases hg : m.drmFormatModifierTilingFeatures &&& dma_tex_features = dma_tex_features <;>
      simp [hg]

/-- C10 amended, on a device that reports six modifiers: 0 and 7 are recorded for
rendering and 0, 7 and 9 for texturing; modifiers 13 and 15 pass both feature guards and
are recorded in neither list, 13 because the device reports no importable capability
for it and 15 because the query for it fails. -/
theorem appended_iff_features_and_usable_witness :
    (query_modifier_support example_guarded_device callocs_succeed
        { format := example_format, render_mods := [], texture_mods := [] }
        6).1.render_mods.map (fun p => p.props.drmFormatModifier) = [0, 7]
    ∧ (query_modifier_support example_guarded_device callocs_succeed
        { format := example_format, render_mods := [], texture_mods := [] }
        6).1.texture_mods.map (fun p => p.props.drmFormatModifier) = [0, 7, 9]
    ∧ ((example_guarded_device.drmFormatModifierProperties example_format.vk).filter (fun m =>
        decide (m.drmFormatModifierTilingFeatures &&& render_features = render_features)
          && !modifier_usable example_guarded_device example_format vulkan_render_usage m)).map
        (fun m => m.drmFormatModifier) = [13, 15]
    ∧ ((query_modifier_support example_guarded_device callocs_succeed
          { format := example_format, render_mods := [], texture_mods := [] }
          6).1.render_mods.map (fun p => p.props) =
        ((example_guarded_device.drmFormatModifierProperties example_format.vk).take 6).filter
          (fun m =>
            decide (m.drmFormatModifierTilingFeatures &&& render_features = render_features)
              && modifier_usable example_guarded_device example_format vulkan_render_usage m)
      ∧ (query_modifier_support example_guarded_device callocs_succeed
          { format := example_format, render_mods := [], texture_mods := [] }
          6).1.texture_mods.map (fun p => p.props) =
        ((example_guarded_device.drmFormatModifierProperties example_format.vk).take 6).filter
          (fun m =>
            decide (m.drmFormatModifierTilingFeatures &&& dma_tex_features = dma_tex_features)
              && modifier_usable example_guarded_device example_format vulkan_dma_tex_usage m)) :=
  ⟨by decide, by decide, by decide,
   appended_iff_features_and_usable example_guarded_device example_format 6⟩

/-! ## Selection of the memory type -/

/-- The mask test `req_bits & (1 << i)` of `vulkan_find_mem_type` reads bit `i`. -/
theorem mem_type_mask_iff_testBit (req_bits i : Nat) (hi : i < 32) :
    (req_bits &&& ((1 <<< i) % 2 ^ 32) ≠ 0) ↔ req_bits.testBit i = true := by
  have hpow : (1 <<< i) % 2 ^ 32 = 2 ^ i := by
    rw [Nat.one_shiftLeft]
    exact Nat.mod_eq_of_lt (Nat.pow_lt_pow_right (by decide) hi)
  rw [hpow, Nat.and_two_pow]
  cases req_bits.testBit i <;> simp

theorem find_mem_type_loop_step_hit (flags req_bits propertyFlags : Nat) (rest : List Nat)
    (i : Nat) (hi : i < 32) (hbit : req_bits.testBit i = true)
    (hflags : propertyFlags &&& flags = flags) :
    vulkan_find_mem_type_loop flags req_bits (propertyFlags :: rest) i = (i : Int) := by
  rw [vulkan_find_mem_type_loop]
  rw [if_pos ((mem_type_mask_iff_testBit req_bits i hi).mpr hbit), if_pos hflags]

theorem find_mem_type_loop_step_miss (flags req_bits propertyFlags : Nat) (rest : List Nat)
    (i : Nat) (hi : i < 32)
    (hmiss : ¬ (req_bits.testBit i = true ∧ propertyFlags &&& flags = flags)) :
    vulkan_find_mem_type_loop flags req_bits (propertyFlags :: rest) i =
      vulkan_find_mem_type_loop flags req_bits rest (i + 1) := by
  rw [vulkan_find_mem_type_loop]
  by_cases hm : req_bits &&& ((1 <<< i) % 2 ^ 32) ≠ 0
  · rw [if_pos hm]
    have hbit := (mem_type_mask_iff_testBit req_bits i hi).mp hm
    have hf : ¬ propertyFlags &&& flags = flags := fun hf => hmiss ⟨hbit, hf⟩
    rw [if_neg hf]
  · rw [if_neg hm]

/-- The loop of `vulkan_find_mem_type` from index `i`: either it returns `-1` and no
type from `i` on qualifies, or it returns the index of the first type that does. -/
theorem find_mem_type_loop_spec (flags req_bits : Nat) (types : List Nat) (i : Nat)
    (hle : i + types.length ≤ 32) :
    (vulkan_find_mem_type_loop flags req_bits types i = -1
      ∧ ∀ (k : Nat) t, types[k]? = some t →
          ¬ (req_bits.testBit (i + k) = true ∧ t &&& flags = flags))
    ∨ ∃ (k : Nat) (t : Nat), types[k]? = some t
        ∧ vulkan_find_mem_type_loop flags req_bits types i = ((i + k : Nat) : Int)
        ∧ req_bits.testBit (i + k) = true ∧ t &&& flags = flags
        ∧ ∀ (j : Nat) u, j < k → types[j]? = some u →
            ¬ (req_bits.testBit (i + j) = true ∧ u &&& flags = flags) := by
  induction types generalizing i with
  | nil =>
    left
    refine ⟨rfl, ?_⟩
    intro k t hk
    simp at hk
  | cons propertyFlags rest ih =>
    simp only [List.length_cons] at hle
    by_cases hq : req_bits.testBit i = true ∧ propertyFlags &&& flags = flags
    · right
      refine ⟨0, propertyFlags, by simp, ?_, hq.1, hq.2, ?_⟩
      · rw [find_mem_type_loop_step_hit flags req_bits propertyFlags rest i (by omega) hq.1 hq.2]
        rfl
      · intro j u hj
        omega
    · rw [find_mem_type_loop_step_miss flags req_bits propertyFlags rest i (by omega) hq]
      rcases ih (i + 1) (by omega) with ⟨hres, hnone⟩ | ⟨k, t, hk, hres, hbit, hflags, hfirst⟩
      · left
        refine ⟨hres, ?_⟩
        intro k t hk
        cases k with
        | zero =>
          simp only [List.getElem?_cons_zero, Option.some.injEq] at hk
          rw [← hk]
          exact hq
        | succ k =>
          simp only [List.getElem?_cons_succ] at hk
          have := hnone k t hk
          rwa [show i + 1 + k = i + (k + 1) by omega] at this
      · right
        refine ⟨k + 1, t, by simpa using hk, ?_, ?_, hflags, ?_⟩
        · rw [hres]
          congr 1
          omega
        · rwa [show i + 1 + k = i + (k + 1) by omega] at hbit
        · intro j u hj hu
          cases j with
          | zero =>
            simp only [List.getElem?_cons_zero, Option.some.injEq] at hu
            rw [← hu]
            exact hq
          | succ j =>
            simp only [List.getElem?_cons_succ] at hu
            have := hfirst j u (by omega) hu
            rwa [show i + 1 + j = i + (j + 1) by omega] at this

/-! ## The runs of `gbm_vulkan_bo_create`, branch by branch -/

theorem bo_create_run_image_fails (format_canonicalize : Nat → Nat) (vulkan : gbm_vulkan_device)
    (width height format usage : Nat) (modifiers : List Nat) (format_props : vulkan_format_props)
    (husage : usage &&& (GBM_BO_USE_PROTECTED ||| GBM_BO_USE_WRITE) = 0)
    (hfmt : vulkan_format_props_from_drm vulkan (format_canonicalize format) = some format_props)
    (hci : vulkan.device.vkCreateImage
      (bo_create_img_create format_props width height usage modifiers) = none) :
    gbm_vulkan_bo_create format_canonicalize true vulkan width height format usage modifiers =
      (.ok none,
        [Call.calloc_bo true,
         Call.vkCreateImage (bo_create_img_create format_props width height usage modifiers) none]
        ++ gbm_vulkan_bo_destroy
            (bo_create_partial_bo format_canonicalize width height format 0 0)) := by
  simp [gbm_vulkan_bo_create, husage, hfmt, hci, bo_create_partial_bo]

theorem bo_create_run_no_mem_type (format_canonicalize : Nat → Nat) (vulkan : gbm_vulkan_device)
    (width height format usage : Nat) (modifiers : List Nat) (format_props : vulkan_format_props)
    (image : Nat)
    (husage : usage &&& (GBM_BO_USE_PROTECTED ||| GBM_BO_USE_WRITE) = 0)
    (hfmt : vulkan_format_props_from_drm vulkan (format_canonicalize format) = some format_props)
    (hci : vulkan.device.vkCreateImage
      (bo_create_img_create format_props width height usage modifiers) = some image)
    (hfind : vulkan_find_mem_type vulkan.physical_device VK_MEMORY_PROPERTY_DEVICE_LOCAL_BIT
      (vulkan.device.vkGetImageMemoryRequirements image).memoryTypeBits = -1) :
    gbm_vulkan_bo_create format_canonicalize true vulkan width height format usage modifiers =
      (.ok none,
        [Call.calloc_bo true,
         Call.vkCreateImage (bo_create_img_create format_props width height usage modifiers)
           (some image),
         Call.vkGetImageMemoryRequirements image,
         Call.vkGetPhysicalDeviceMemoryProperties]
        ++ gbm_vulkan_bo_destroy
            (bo_create_partial_bo format_canonicalize width height format image 0)) := by
  simp [gbm_vulkan_bo_create, husage, hfmt, hci, hfind, bo_create_partial_bo]

theorem bo_create_run_alloc_fails (format_canonicalize : Nat → Nat) (vulkan : gbm_vulkan_device)
    (width height format usage : Nat) (modifiers : List Nat) (format_props : vulkan_format_props)
    (image : Nat)
    (husage : usage &&& (GBM_BO_USE_PROTECTED ||| GBM_BO_USE_WRITE) = 0)
    (hfmt : vulkan_format_props_from_drm vulkan (format_canonicalize format) = some format_props)
    (hci : vulkan.device.vkCreateImage
      (bo_create_img_create format_props width height usage modifiers) = some image)
    (hfind : vulkan_find_mem_type vulkan.physical_device VK_MEMORY_PROPERTY_DEVICE_LOCAL_BIT
      (vulkan.device.vkGetImageMemoryRequirements image).memoryTypeBits ≠ -1)
    (halloc : vulkan.device.vkAllocateMemory (bo_create_mem_alloc vulkan image) = none) :
    gbm_vulkan_bo_create format_canonicalize true vulkan width height format usage modifiers =
      (.ok none,
        [Call.calloc_bo true,
         Call.vkCreateImage (bo_create_img_create format_props width height usage modifiers)
           (some image),
         Call.vkGetImageMemoryRequirements image,
         Call.vkGetPhysicalDeviceMemoryProperties,
         Call.vkAllocateMemory (bo_create_mem_alloc vulkan image) none]
        ++ gbm_vulkan_bo_destroy
            (bo_create_partial_bo format_canonicalize width height format image 0)) := by
  unfold bo_create_mem_alloc at halloc
  simp [gbm_vulkan_bo_create, husage, hfmt, hci, hfind, halloc, bo_create_partial_bo,
    bo_create_mem_alloc]

theorem bo_create_run_bind_fails (format_canonicalize : Nat → Nat) (vulkan : gbm_vulkan_device)
    (width height format usage : Nat) (modifiers : List Nat) (format_props : vulkan_format_props)
    (image memory : Nat)
    (husage : usage &&& (GBM_BO_USE_PROTECTED ||| GBM_BO_USE_WRITE) = 0)
    (hfmt : vulkan_format_props_from_drm vulkan (format_canonicalize format) = some format_props)
    (hci : vulkan.device.vkCreateImage
      (bo_create_img_create format_props width height usage modifiers) = some image)
    (hfind : vulkan_find_mem_type vulkan.physical_device VK_MEMORY_PROPERTY_DEVICE_LOCAL_BIT
      (vulkan.device.vkGetImageMemoryRequirements image).memoryTypeBits ≠ -1)
    (halloc : vulkan.device.vkAllocateMemory (bo_create_mem_alloc vulkan image) = some memory)
    (hbind : vulkan.device.vkBindImageMemory image memory 0 = false) :
    gbm_vulkan_bo_create format_canonicalize true vulkan width height format usage modifiers =
      (.ok none,
        [Call.calloc_bo true,
         Call.vkCreateImage (bo_create_img_create format_props width height usage modifiers)
           (some image),
         Call.vkGetImageMemoryRequirements image,
         Call.vkGetPhysicalDeviceMemoryProperties,
         Call.vkAllocateMemory (bo_create_mem_alloc vulkan image) (some memory),
         Call.vkBindImageMemory image memory 0 false]
        ++ gbm_vulkan_bo_destroy
            (bo_create_partial_bo format_canonicalize width height format image memory)) := by
  unfold bo_create_mem_alloc at halloc
  simp [gbm_vulkan_bo_create, husage, hfmt, hci, hfind, halloc, hbind, bo_create_partial_bo,
    bo_create_mem_alloc]

theorem bo_create_run_query_fails (format_canonicalize : Nat → Nat) (vulkan : gbm_vulkan_device)
    (width height format usage : Nat) (modifiers : List Nat) (format_props : vulkan_format_props)
    (image memory : Nat)
    (husage : usage &&& (GBM_BO_USE_PROTECTED ||| GBM_BO_USE_WRITE) = 0)
    (hfmt : vulkan_format_props_from_drm vulkan (format_canonicalize format) = some format_props)
    (hci : vulkan.device.vkCreateImage
      (bo_create_img_create format_props width height usage modifiers) = some image)
    (hfind : vulkan_find_mem_type vulkan.physical_device VK_MEMORY_PROPERTY_DEVICE_LOCAL_BIT
      (vulkan.device.vkGetImageMemoryRequirements image).memoryTypeBits ≠ -1)
    (halloc : vulkan.device.vkAllocateMemory (bo_create_mem_alloc vulkan image) = some memory)
    (hbind : vulkan.device.vkBindImageMemory image memory 0 = true)
    (hquery : vulkan.device.vkGetImageDrmFormatModifierPropertiesEXT image = none) :
    gbm_vulkan_bo_create format_canonicalize true vulkan width height format usage modifiers =
      (.ok none,
        [Call.calloc_bo true,
         Call.vkCreateImage (bo_create_img_create format_props width height usage modifiers)
           (some image),
         Call.vkGetImageMemoryRequirements image,
         Call.vkGetPhysicalDeviceMemoryProperties,
         Call.vkAllocateMemory (bo_create_mem_alloc vulkan image) (some memory),
         Call.vkBindImageMemory image memory 0 true,
         Call.vkGetImageDrmFormatModifierPropertiesEXT image none]
        ++ gbm_vulkan_bo_destroy
            (bo_create_partial_bo format_canonicalize width height format image memory)) := by
  unfold bo_create_mem_alloc at halloc
  simp [gbm_vulkan_bo_create, husage, hfmt, hci, hfind, halloc, hbind, hquery,
    bo_create_partial_bo, bo_create_mem_alloc]

/-- The run in which the five steps succeed: the outcome hangs on the second lookup. -/
theorem bo_create_run_steps_succeed (format_canonicalize : Nat → Nat)
    (vulkan : gbm_vulkan_device)
    (width height format usage : Nat) (modifiers : List Nat) (format_props : vulkan_format_props)
    (image memory committed : Nat)
    (husage : usage &&& (GBM_BO_USE_PROTECTED ||| GBM_BO_USE_WRITE) = 0)
    (hfmt : vulkan_format_props_from_drm vulkan (format_canonicalize format) = some format_props)
    (hci : vulkan.device.vkCreateImage
      (bo_create_img_create format_props width height usage modifiers) = some image)
    (hfind : vulkan_find_mem_type vulkan.physical_device VK_MEMORY_PROPERTY_DEVICE_LOCAL_BIT
      (vulkan.device.vkGetImageMemoryRequirements image).memoryTypeBits ≠ -1)
    (halloc : vulkan.device.vkAllocateMemory (bo_create_mem_alloc vulkan image) = some memory)
    (hbind : vulkan.device.vkBindImageMemory image memory 0 = true)
    (hquery : vulkan.device.vkGetImageDrmFormatModifierPropertiesEXT image = some committed) :
    gbm_vulkan_bo_create format_canonicalize true vulkan width height format usage modifiers =
      ((match vulkan_format_props_find_modifier format_props committed
            (usage &&& GBM_BO_USE_RENDERING != 0) with
        | none => .error Fault.assert_failed
        | some mod_props =>
          .ok (some { width := width, height := height, format := format_canonicalize format,
                      image := image, memory := memory, modifier := committed,
                      plane_cnt := mod_props.props.drmFormatModifierPlaneCount })),
        [Call.calloc_bo true,
         Call.vkCreateImage (bo_create_img_create format_props width height usage modifiers)
           (some image),
         Call.vkGetImageMemoryRequirements image,
         Call.vkGetPhysicalDeviceMemoryProperties,
         Call.vkAllocateMemory (bo_create_mem_alloc vulkan image) (some memory),
         Call.vkBindImageMemory image memory 0 true,
         Call.vkGetImageDrmFormatModifierPropertiesEXT image (some committed)]) := by
  unfold bo_create_mem_alloc at halloc
  cases hlook : vulkan_format_props_find_modifier format_props committed
      (usage &&& GBM_BO_USE_RENDERING != 0) <;>
  simp [gbm_vulkan_bo_create, husage, hfmt, hci, hfind, halloc, hbind, hquery,
    bo_create_mem_alloc, hlook]

/-- The calls of `gbm_vulkan_bo_destroy` are releases of the handles of the object. -/
theorem mem_bo_destroy (bo : gbm_vulkan_bo) (c : Call) (hc : c ∈ gbm_vulkan_bo_destroy bo) :
    c = Call.vkFreeMemory bo.memory ∨ c = Call.vkDestroyImage bo.image ∨ c = Call.free_bo := by
  unfold gbm_vulkan_bo_destroy at hc
  simp only [List.mem_append, List.mem_singleton] at hc
  rcases hc with (hc | hc) | hc
  · split at hc
    · left; simpa using hc
    · simp at hc
  · split at hc
    · right; left; simpa using hc
    · simp at hc
  · right; right; exact hc

/-- C11: on a device with at most 32 memory types, `vulkan_find_mem_type` returns `-1`
exactly when no index below the memory type count has its bit set in `req_bits` and a
type with all of `flags`; otherwise it returns the smallest such index.
`gbm_vulkan_bo_create` calls it with `VK_MEMORY_PROPERTY_DEVICE_LOCAL_BIT` and the
`memoryTypeBits` of the image: when the answer is `-1` it returns `NULL` and allocates no
memory, otherwise it allocates memory of the type of that index. -/
theorem find_mem_type_lowest_matching_index (vulkan : gbm_vulkan_device) (flags req_bits : Nat)
    (hcount : vulkan.physical_device.memoryTypes.length ≤ 32) :
    (vulkan_find_mem_type vulkan.physical_device flags req_bits = -1 ↔
      ∀ (k : Nat) t, vulkan.physical_device.memoryTypes[k]? = some t →
        ¬ (req_bits.testBit k = true ∧ t &&& flags = flags))
    ∧ (vulkan_find_mem_type vulkan.physical_device flags req_bits ≠ -1 →
      ∃ (k : Nat) (t : Nat), vulkan.physical_device.memoryTypes[k]? = some t
        ∧ vulkan_find_mem_type vulkan.physical_device flags req_bits = (k : Int)
        ∧ req_bits.testBit k = true ∧ t &&& flags = flags
        ∧ ∀ (j : Nat) u, j < k → vulkan.physical_device.memoryTypes[j]? = some u →
            ¬ (req_bits.testBit j = true ∧ u &&& flags = flags))
    ∧ ∀ (format_canonicalize : Nat → Nat) (width height format usage : Nat)
        (modifiers : List Nat) (format_props : vulkan_format_props) (image : Nat),
        usage &&& GBM_BO_USE_WRITE = 0 → usage &&& GBM_BO_USE_PROTECTED = 0 →
        vulkan_format_props_from_drm vulkan (format_canonicalize format) = some format_props →
        vulkan.device.vkCreateImage
          (bo_create_img_create format_props width height usage modifiers) = some image →
        (vulkan_find_mem_type vulkan.physical_device VK_MEMORY_PROPERTY_DEVICE_LOCAL_BIT
            (vulkan.device.vkGetImageMemoryRequirements image).memoryTypeBits = -1 →
          (gbm_vulkan_bo_create format_canonicalize true vulkan width height format usage
            modifiers).1 = .ok none
          ∧ ∀ c ∈ (gbm_vulkan_bo_create format_canonicalize true vulkan width height format
              usage modifiers).2, ∀ info result, c ≠ Call.vkAllocateMemory info result)
        ∧ (vulkan_find_mem_type vulkan.physical_device VK_MEMORY_PROPERTY_DEVICE_LOCAL_BIT
            (vulkan.device.vkGetImageMemoryRequirements image).memoryTypeBits ≠ -1 →
          Call.vkAllocateMemory (bo_create_mem_alloc vulkan image)
            (vulkan.device.vkAllocateMemory (bo_create_mem_alloc vulkan image))
            ∈ (gbm_vulkan_bo_create format_canonicalize true vulkan width height format usage
                modifiers).2) := by
  have hspec := find_mem_type_loop_spec flags req_bits vulkan.physical_device.memoryTypes 0
    (by omega)
  simp only [Nat.zero_add] at hspec
  refine ⟨?_, ?_, ?_⟩
  · unfold vulkan_find_mem_type
    rcases hspec with ⟨hres, hnone⟩ | ⟨k, t, hk, hres, hbit, hflags, _⟩
    · exact ⟨fun _ => hnone, fun _ => hres⟩
    · constructor
      · intro h
        rw [hres] at h
        omega
      · intro h
        exact absurd ⟨hbit, hflags⟩ (h k t hk)
  · unfold vulkan_find_mem_type
    intro hne
    rcases hspec with ⟨hres, _⟩ | ⟨k, t, hk, hres, hbit, hflags, hfirst⟩
    · exact absurd hres hne
    · exact ⟨k, t, hk, hres, hbit, hflags, hfirst⟩
  · intro format_canonicalize width height format usage modifiers format_props image hw hp
      hfmt hci
    have husage := land_lor_eq_zero usage _ _ hp hw
    constructor
    · intro hfind
      rw [bo_create_run_no_mem_type format_canonicalize vulkan width height format usage
        modifiers format_props image husage hfmt hci hfind]
      refine ⟨rfl, ?_⟩
      intro c hc info result
      simp only [List.mem_append, List.mem_cons, List.not_mem_nil, or_false] at hc
      rcases hc with hc | hc
      · rcases hc with hc | hc | hc | hc <;> rw [hc] <;> simp
      · rcases mem_bo_destroy _ c hc with hc | hc | hc <;> rw [hc] <;> simp
    · intro hfind
      cases halloc : vulkan.device.vkAllocateMemory (bo_create_mem_alloc vulkan image) with
      | none =>
        rw [bo_create_run_alloc_fails format_canonicalize vulkan width height format usage
          modifiers format_props image husage hfmt hci hfind halloc]
        simp
      | some memory =>
        cases hbind : vulkan.device.vkBindImageMemory image memory 0 with
        | false =>
          rw [bo_create_run_bind_fails format_canonicalize vulkan width height format usage
            modifiers format_props image memory husage hfmt hci hfind halloc hbind]
          simp
        | true =>
          cases hquery : vulkan.device.vkGetImageDrmFormatModifierPropertiesEXT image with
          | none =>
            rw [bo_create_run_query_fails format_canonicalize vulkan width height format usage
              modifiers format_props image memory husage hfmt hci hfind halloc hbind hquery]
            simp
          | some committed =>
            rw [bo_create_run_steps_succeed format_canonicalize vulkan width height format usage
              modifiers format_props image memory committed husage hfmt hci hfind halloc hbind
              hquery]
            simp

/-- C11, on the example devices: with memory types `[6, 1]` and requirement bits `3`,
type `1` is the first device-local one; with the only type `6` there is none, and the
creation of a buffer returns `NULL`. -/
theorem find_mem_type_lowest_matching_index_witness :
    example_device.physical_device.memoryTypes.length ≤ 32
    ∧ vulkan_find_mem_type example_device.physical_device VK_MEMORY_PROPERTY_DEVICE_LOCAL_BIT 3
        = 1
    ∧ (∃ (k : Nat) (t : Nat), example_device.physical_device.memoryTypes[k]? = some t
        ∧ vulkan_find_mem_type example_device.physical_device
            VK_MEMORY_PROPERTY_DEVICE_LOCAL_BIT 3 = (k : Int)
        ∧ Nat.testBit 3 k = true ∧ t &&& VK_MEMORY_PROPERTY_DEVICE_LOCAL_BIT
            = VK_MEMORY_PROPERTY_DEVICE_LOCAL_BIT
        ∧ ∀ (j : Nat) u, j < k → example_device.physical_device.memoryTypes[j]? = some u →
            ¬ (Nat.testBit 3 j = true ∧ u &&& VK_MEMORY_PROPERTY_DEVICE_LOCAL_BIT
                = VK_MEMORY_PROPERTY_DEVICE_LOCAL_BIT))
    ∧ (gbm_vulkan_bo_create core_format_canonicalize true example_device_without_local_memory
          1920 1080 GBM_BO_FORMAT_XRGB8888 GBM_BO_USE_RENDERING [0]).1 = .ok none :=
  ⟨by decide, by decide,
   (find_mem_type_lowest_matching_index example_device VK_MEMORY_PROPERTY_DEVICE_LOCAL_BIT 3
      (by decide)).2.1 (by decide),
   (((find_mem_type_lowest_matching_index example_device_without_local_memory
      VK_MEMORY_PROPERTY_DEVICE_LOCAL_BIT 3 (by decide)).2.2 core_format_canonicalize 1920 1080
      GBM_BO_FORMAT_XRGB8888 GBM_BO_USE_RENDERING [0] example_format_props 1
      (by decide) (by decide) (by decide) (by decide)).1 (by decide)).1⟩

/-! ## Failure paths of the buffer creation -/

/-- C12: past the usage check, the allocation of the object and the format lookup, with
a driver whose created handles are not `VK_NULL_HANDLE`, each failure ends the run of
`gbm_vulkan_bo_create` with `NULL` and with exactly these calls: the steps up to the
failing one, each once, then `vkFreeMemory` of the memory if it was allocated, then
`vkDestroyImage` of the image if it was created, then the release of the object.  The
five failures are those of image creation, memory-type selection, memory allocation,
binding, and the query of the committed modifier. -/
theorem bo_create_failure_releases_what_was_created (format_canonicalize : Nat → Nat)
    (vulkan : gbm_vulkan_device) (width height format usage : Nat) (modifiers : List Nat)
    (format_props : vulkan_format_props)
    (hw : usage &&& GBM_BO_USE_WRITE = 0) (hp : usage &&& GBM_BO_USE_PROTECTED = 0)
    (hfmt : vulkan_format_props_from_drm vulkan (format_canonicalize format)
      = some format_props) :
    (vulkan.device.vkCreateImage
        (bo_create_img_create format_props width height usage modifiers) = none →
      gbm_vulkan_bo_create format_canonicalize true vulkan width height format usage modifiers =
        (.ok none,
          [Call.calloc_bo true,
           Call.vkCreateImage (bo_create_img_create format_props width height usage modifiers)
             none,
           Call.free_bo]))
    ∧ ∀ image, vulkan.device.vkCreateImage
        (bo_create_img_create format_props width height usage modifiers) = some image →
      image ≠ 0 →
      (vulkan_find_mem_type vulkan.physical_device VK_MEMORY_PROPERTY_DEVICE_LOCAL_BIT
          (vulkan.device.vkGetImageMemoryRequirements image).memoryTypeBits = -1 →
        gbm_vulkan_bo_create format_canonicalize true vulkan width height format usage modifiers =
          (.ok none,
            [Call.calloc_bo true,
             Call.vkCreateImage (bo_create_img_create format_props width height usage modifiers)
               (some image),
             Call.vkGetImageMemoryRequirements image,
             Call.vkGetPhysicalDeviceMemoryProperties,
             Call.vkDestroyImage image,
             Call.free_bo]))
      ∧ (vulkan_find_mem_type vulkan.physical_device VK_MEMORY_PROPERTY_DEVICE_LOCAL_BIT
          (vulkan.device.vkGetImageMemoryRequirements image).memoryTypeBits ≠ -1 →
        (vulkan.device.vkAllocateMemory (bo_create_mem_alloc vulkan image) = none →
          gbm_vulkan_bo_create format_canonicalize true vulkan width height format usage
              modifiers =
            (.ok none,
              [Call.calloc_bo true,
               Call.vkCreateImage
                 (bo_create_img_create format_props width height usage modifiers) (some image),
               Call.vkGetImageMemoryRequirements image,
               Call.vkGetPhysicalDeviceMemoryProperties,
               Call.vkAllocateMemory (bo_create_mem_alloc vulkan image) none,
               Call.vkDestroyImage image,
               Call.free_bo]))
        ∧ ∀ memory, vulkan.device.vkAllocateMemory (bo_create_mem_alloc vulkan image)
            = some memory →
          memory ≠ 0 →
          (vulkan.device.vkBindImageMemory image memory 0 = false →
            gbm_vulkan_bo_create format_canonicalize true vulkan width height format usage
                modifiers =
              (.ok none,
                [Call.calloc_bo true,
                 Call.vkCreateImage
                   (bo_create_img_create format_props width height usage modifiers) (some image),
                 Call.vkGetImageMemoryRequirements image,
                 Call.vkGetPhysicalDeviceMemoryProperties,
                 Call.vkAllocateMemory (bo_create_mem_alloc vulkan image) (some memory),
                 Call.vkBindImageMemory image memory 0 false,
                 Call.vkFreeMemory memory,
                 Call.vkDestroyImage image,
                 Call.free_bo]))
          ∧ (vulkan.device.vkBindImageMemory image memory 0 = true →
            vulkan.device.vkGetImageDrmFormatModifierPropertiesEXT image = none →
            gbm_vulkan_bo_create format_canonicalize true vulkan width height format usage
                modifiers =
              (.ok none,
                [Call.calloc_bo true,
                 Call.vkCreateImage
                   (bo_create_img_create format_props width height usage modifiers) (some image),
                 Call.vkGetImageMemoryRequirements image,
                 Call.vkGetPhysicalDeviceMemoryProperties,
                 Call.vkAllocateMemory (bo_create_mem_alloc vulkan image) (some memory),
                 Call.vkBindImageMemory image memory 0 true,
                 Call.vkGetImageDrmFormatModifierPropertiesEXT image none,
                 Call.vkFreeMemory memory,
                 Call.vkDestroyImage image,
                 Call.free_bo]))) := by
  have husage := land_lor_eq_zero usage _ _ hp hw
  refine ⟨?_, ?_⟩
  · intro hci
    rw [bo_create_run_image_fails format_canonicalize vulkan width height format usage
      modifiers format_props husage hfmt hci]
    simp [gbm_vulkan_bo_destroy, bo_create_partial_bo]
  · intro image hci himage
    refine ⟨?_, ?_⟩
    · intro hfind
      rw [bo_create_run_no_mem_type format_canonicalize vulkan width height format usage
        modifiers format_props image husage hfmt hci hfind]
      simp [gbm_vulkan_bo_destroy, bo_create_partial_bo, himage]
    · intro hfind
      refine ⟨?_, ?_⟩
      · intro halloc
        rw [bo_create_run_alloc_fails format_canonicalize vulkan width height format usage
          modifiers format_props image husage hfmt hci hfind halloc]
        simp [gbm_vulkan_bo_destroy, bo_create_partial_bo, himage]
      · intro memory halloc hmemory
        refine ⟨?_, ?_⟩
        · intro hbind
          rw [bo_create_run_bind_fails format_canonicalize vulkan width height format usage
            modifiers format_props image memory husage hfmt hci hfind halloc hbind]
          simp [gbm_vulkan_bo_destroy, bo_create_partial_bo, himage, hmemory]
        · intro hbind hquery
          rw [bo_create_run_query_fails format_canonicalize vulkan width height format usage
            modifiers format_props image memory husage hfmt hci hfind halloc hbind hquery]
          simp [gbm_vulkan_bo_destroy, bo_create_partial_bo, himage, hmemory]

/-- C12, on the example device whose binding fails: image `1` and memory `2` were
created, and the run ends with `vkFreeMemory 2`, `vkDestroyImage 1` and the release of
the object. -/
theorem bo_create_failure_releases_what_was_created_witness :
    gbm_vulkan_bo_create core_format_canonicalize true example_device_bind_fails 1920 1080
        GBM_BO_FORMAT_XRGB8888 GBM_BO_USE_RENDERING [0] =
      (.ok none,
        [Call.calloc_bo true,
         Call.vkCreateImage
           (bo_create_img_create example_format_props 1920 1080 GBM_BO_USE_RENDERING [0])
           (some 1),
         Call.vkGetImageMemoryRequirements 1,
         Call.vkGetPhysicalDeviceMemoryProperties,
         Call.vkAllocateMemory (bo_create_mem_alloc example_device_bind_fails 1) (some 2),
         Call.vkBindImageMemory 1 2 0 false,
         Call.vkFreeMemory 2,
         Call.vkDestroyImage 1,
         Call.free_bo]) :=
  (((((bo_create_failure_releases_what_was_created core_format_canonicalize
      example_device_bind_fails 1920 1080 GBM_BO_FORMAT_XRGB8888 GBM_BO_USE_RENDERING [0]
      example_format_props (by decide) (by decide) (by decide)).2 1 (by decide) (by decide)).2
      (by decide)).2 2 (by decide) (by decide)).1 (by decide))

/-- C13 as stated fails on a driver that accepts an empty picklist: the only candidate,
modifier 7, has a recorded max extent of 1024x1024, below the requested 1920x1080, the
picklist is empty, and `gbm_vulkan_bo_create` still returns a buffer object. -/
theorem bo_create_empty_picklist_can_succeed :
    (∀ m ∈ [7], ∃ p,
        vulkan_format_props_find_modifier example_format_props m
          (GBM_BO_USE_RENDERING &&& GBM_BO_USE_RENDERING != 0) = some p
        ∧ (p.max_extent.width < 1920 ∨ p.max_extent.height < 1080))
    ∧ (bo_create_img_create example_format_props 1920 1080 GBM_BO_USE_RENDERING
        [7]).drmFormatModifiers = []
    ∧ ∃ bo, (gbm_vulkan_bo_create core_format_canonicalize true
        example_device_accepts_empty_picklist 1920 1080 GBM_BO_FORMAT_XRGB8888
        GBM_BO_USE_RENDERING [7]).1 = .ok (some bo) := by
  refine ⟨?_, by decide, _, rfl⟩
  intro m hm
  rw [List.mem_singleton.mp hm]
  exact ⟨_, rfl, by decide⟩

/-- C13, amended: when every candidate is found with a recorded max extent below the
requested width or height, the picklist of `img_create` is empty; past the usage check,
the allocation of the object and the format lookup, `vkCreateImage` is called with that
empty picklist, and when the driver rejects it `gbm_vulkan_bo_create` returns `NULL`
having created no image and no memory. -/
theorem bo_create_candidates_too_small (format_canonicalize : Nat → Nat)
    (vulkan : gbm_vulkan_device) (width height format usage : Nat) (modifiers : List Nat)
    (format_props : vulkan_format_props)
    (hsmall : ∀ m ∈ modifiers, ∃ p,
      vulkan_format_props_find_modifier format_props m (usage &&& GBM_BO_USE_RENDERING != 0)
        = some p
      ∧ (p.max_extent.width < width ∨ p.max_extent.height < height)) :
    (bo_create_img_create format_props width height usage modifiers).drmFormatModifiers = []
    ∧ (usage &&& GBM_BO_USE_WRITE = 0 → usage &&& GBM_BO_USE_PROTECTED = 0 →
        vulkan_format_props_from_drm vulkan (format_canonicalize format) = some format_props →
        (∃ rest, (gbm_vulkan_bo_create format_canonicalize true vulkan width height format usage
            modifiers).2 =
          Call.calloc_bo true ::
            Call.vkCreateImage (bo_create_img_create format_props width height usage modifiers)
              (vulkan.device.vkCreateImage
                (bo_create_img_create format_props width height usage modifiers)) :: rest)
        ∧ (vulkan.device.vkCreateImage
              (bo_create_img_create format_props width height usage modifiers) = none →
            gbm_vulkan_bo_create format_canonicalize true vulkan width height format usage
                modifiers =
              (.ok none,
                [Call.calloc_bo true,
                 Call.vkCreateImage
                   (bo_create_img_create format_props width height usage modifiers) none,
                 Call.free_bo]))) := by
  constructor
  · simp only [bo_create_img_create, bo_create_filter_loop_eq, List.nil_append]
    rw [List.filter_eq_nil_iff]
    intro m hm
    obtain ⟨p, hp, hext⟩ := hsmall m hm
    rw [hp]
    simp only [decide_eq_true_eq]
    omega
  · intro hw hp hfmt
    have husage := land_lor_eq_zero usage _ _ hp hw
    constructor
    · obtain ⟨rest, hrest, _⟩ := bo_create_trace_shape format_canonicalize vulkan width height
        format usage modifiers format_props husage hfmt
      exact ⟨rest, hrest⟩
    · intro hci
      rw [bo_create_run_image_fails format_canonicalize vulkan width height format usage
        modifiers format_props husage hfmt hci]
      simp [gbm_vulkan_bo_destroy, bo_create_partial_bo]

/-- C13 amended, on the example device, whose driver rejects an empty picklist. -/
theorem bo_create_candidates_too_small_witness :
    (bo_create_img_create example_format_props 1920 1080 GBM_BO_USE_RENDERING
        [7]).drmFormatModifiers = []
    ∧ gbm_vulkan_bo_create core_format_canonicalize true example_device 1920 1080
          GBM_BO_FORMAT_XRGB8888 GBM_BO_USE_RENDERING [7] =
        (.ok none,
          [Call.calloc_bo true,
           Call.vkCreateImage
             (bo_create_img_create example_format_props 1920 1080 GBM_BO_USE_RENDERING [7]) none,
           Call.free_bo]) :=
  ⟨(bo_create_candidates_too_small core_format_canonicalize example_device 1920 1080
      GBM_BO_FORMAT_XRGB8888 GBM_BO_USE_RENDERING [7] example_format_props
      (fun m hm => by
        rw [List.mem_singleton.mp hm]
        exact ⟨_, rfl, by decide⟩)).1,
   ((bo_create_candidates_too_small core_format_canonicalize example_device 1920 1080
      GBM_BO_FORMAT_XRGB8888 GBM_BO_USE_RENDERING [7] example_format_props
      (fun m hm => by
        rw [List.mem_singleton.mp hm]
        exact ⟨_, rfl, by decide⟩)).2 (by decide) (by decide) (by decide)).2 (by decide)⟩

/-! ## The format table -/

/-- C15: in either build of the table, the entry of `DRM_FORMAT_ARGB8888` has the native
format of the entry of `DRM_FORMAT_XRGB8888`, the entry of `DRM_FORMAT_ABGR8888` that of
`DRM_FORMAT_XBGR8888`, both alpha entries have `vk_srgb = 0` while their counterparts
have an sRGB alternate, and `vulkan_get_format_from_drm` returns `NULL` for every code
that no entry of the table has. -/
theorem format_table_alpha_entries (cpu_little_endian : Bool) :
    (∃ a x, vulkan_get_format_from_drm cpu_little_endian DRM_FORMAT_ARGB8888 = some a
        ∧ vulkan_get_format_from_drm cpu_little_endian DRM_FORMAT_XRGB8888 = some x
        ∧ a.drm = DRM_FORMAT_ARGB8888 ∧ x.drm = DRM_FORMAT_XRGB8888
        ∧ a.vk = x.vk ∧ a.vk_srgb = 0 ∧ x.vk_srgb ≠ 0)
    ∧ (∃ a x, vulkan_get_format_from_drm cpu_little_endian DRM_FORMAT_ABGR8888 = some a
        ∧ vulkan_get_format_from_drm cpu_little_endian DRM_FORMAT_XBGR8888 = some x
        ∧ a.drm = DRM_FORMAT_ABGR8888 ∧ x.drm = DRM_FORMAT_XBGR8888
        ∧ a.vk = x.vk ∧ a.vk_srgb = 0 ∧ x.vk_srgb ≠ 0)
    ∧ ∀ drm_format, (∀ f ∈ formats cpu_little_endian, f.drm ≠ drm_format) →
        vulkan_get_format_from_drm cpu_little_endian drm_format = none := by
  refine ⟨?_, ?_, ?_⟩
  · cases cpu_little_endian
    · exact ⟨_, _, rfl, rfl, by decide, by decide, by decide, by decide, by decide⟩
    · exact ⟨_, _, rfl, rfl, by decide, by decide, by decide, by decide, by decide⟩
  · cases cpu_little_endian
    · exact ⟨_, _, rfl, rfl, by decide, by decide, by decide, by decide, by decide⟩
    · exact ⟨_, _, rfl, rfl, by decide, by decide, by decide, by decide, by decide⟩
  · intro drm_format hnone
    unfold vulkan_get_format_from_drm
    rw [List.find?_eq_none]
    intro f hf
    simpa using hnone f hf

/-- C15, for a code of no entry: `DRM_FORMAT_MOD_LINEAR` (0) is no format code. -/
theorem format_table_alpha_entries_witness :
    (∀ f ∈ formats true, f.drm ≠ 0) ∧ vulkan_get_format_from_drm true 0 = none :=
  ⟨by decide, (format_table_alpha_entries true).2.2 0 (by decide)⟩

/-! ## Destruction of the device context -/

/-- C14, the code on a context that is ready: its table has one entry, with non-empty
modifier lists, and `vulkan_destroy` makes three calls, `vkDestroyDevice`,
`vkDestroyInstance` and the release of the context; the two modifier arrays of the entry
and the table, which the specification has released first, are released by no call. -/
theorem vulkan_destroy_leaves_capability_table :
    (example_ready_context.format_props.map (fun table => table.map (fun e => e.format.drm)))
      = some [DRM_FORMAT_XRGB8888]
    ∧ (example_ready_context.format_props.map (fun table =>
        table.all (fun e => !e.render_mods.isEmpty && !e.texture_mods.isEmpty))) = some true
    ∧ vulkan_destroy (some example_ready_context) =
        [ContextCall.vkDestroyDevice 2, ContextCall.vkDestroyInstance 1, ContextCall.free_vulkan]
    ∧ spec_destroy_calls example_ready_context =
        [ContextCall.free_render_mods DRM_FORMAT_XRGB8888,
         ContextCall.free_texture_mods DRM_FORMAT_XRGB8888,
         ContextCall.free_format_props,
         ContextCall.vkDestroyDevice 2, ContextCall.vkDestroyInstance 1, ContextCall.free_vulkan]
    ∧ ContextCall.free_render_mods DRM_FORMAT_XRGB8888 ∉ vulkan_destroy (some example_ready_context)
    ∧ ContextCall.free_texture_mods DRM_FORMAT_XRGB8888 ∉ vulkan_destroy (some example_ready_context)
    ∧ ContextCall.free_format_props ∉ vulkan_destroy (some example_ready_context) := by
  decide

/-! ## Offsets and strides -/

theorem plane_aspects_get (p : Nat) (hp : p < 4) :
    plane_aspects[p]? = some (memory_plane_aspect p) := by
  have h : p = 0 ∨ p = 1 ∨ p = 2 ∨ p = 3 := by omega
  rcases h with h | h | h | h <;> subst h <;> rfl

/-- C16 as stated fails where the device reports a value of 2^32 or more: for plane 1 of
a two-plane object the device reports the byte offset `2^32 + 4096` and the row pitch
`2^32`, and the accessors return `4096` and `0`. -/
theorem accessors_truncate_large_layout :
    (example_device_large_layout.device.vkGetImageSubresourceLayout 1
        VK_IMAGE_ASPECT_MEMORY_PLANE_1_BIT_EXT).offset = 2 ^ 32 + 4096
    ∧ (gbm_vulkan_bo_get_offset example_device_large_layout
        { width := 64, height := 64, format := DRM_FORMAT_XRGB8888, image := 1, memory := 2,
          modifier := 9, plane_cnt := 2 } 1) =
        (.ok 4096, [Call.vkGetImageSubresourceLayout 1 VK_IMAGE_ASPECT_MEMORY_PLANE_1_BIT_EXT])
    ∧ (example_device_large_layout.device.vkGetImageSubresourceLayout 1
        VK_IMAGE_ASPECT_MEMORY_PLANE_1_BIT_EXT).rowPitch = 2 ^ 32
    ∧ (gbm_vulkan_bo_get_stride example_device_large_layout
        { width := 64, height := 64, format := DRM_FORMAT_XRGB8888, image := 1, memory := 2,
          modifier := 9, plane_cnt := 2 } 1) =
        (.ok 0, [Call.vkGetImageSubresourceLayout 1 VK_IMAGE_ASPECT_MEMORY_PLANE_1_BIT_EXT]) :=
  ⟨by decide, rfl, by decide, rfl⟩

/-- C16, amended: for an object of at most 4 planes and a plane index `p` below its
`plane_cnt`, `gbm_vulkan_bo_get_offset` and `gbm_vulkan_bo_get_stride` query the layout
of the memory-plane-`p` aspect of the image once and return the low 32 bits of its byte
offset and of its row pitch: the value itself when it is below `2^32`. -/
theorem accessors_return_low_32_bits_of_layout (dev : gbm_vulkan_device) (bo : gbm_vulkan_bo)
    (plane : Int) (hcnt : bo.plane_cnt ≤ 4) (h0 : 0 ≤ plane) (hlt : plane < bo.plane_cnt) :
    gbm_vulkan_bo_get_offset dev bo plane =
      (.ok ((dev.device.vkGetImageSubresourceLayout bo.image
              (memory_plane_aspect plane.toNat)).offset % 2 ^ 32),
        [Call.vkGetImageSubresourceLayout bo.image (memory_plane_aspect plane.toNat)])
    ∧ gbm_vulkan_bo_get_stride dev bo plane =
      (.ok ((dev.device.vkGetImageSubresourceLayout bo.image
              (memory_plane_aspect plane.toNat)).rowPitch % 2 ^ 32),
        [Call.vkGetImageSubresourceLayout bo.image (memory_plane_aspect plane.toNat)])
    ∧ ((dev.device.vkGetImageSubresourceLayout bo.image
          (memory_plane_aspect plane.toNat)).offset < 2 ^ 32 →
        (gbm_vulkan_bo_get_offset dev bo plane).1 =
          .ok (dev.device.vkGetImageSubresourceLayout bo.image
            (memory_plane_aspect plane.toNat)).offset)
    ∧ ((dev.device.vkGetImageSubresourceLayout bo.image
          (memory_plane_aspect plane.toNat)).rowPitch < 2 ^ 32 →
        (gbm_vulkan_bo_get_stride dev bo plane).1 =
          .ok (dev.device.vkGetImageSubresourceLayout bo.image
            (memory_plane_aspect plane.toNat)).rowPitch) := by
  have hsz : size_t_of_int plane = plane.toNat :=
    size_t_of_int_of_nonneg plane h0 (by omega)
  have hp : plane.toNat < bo.plane_cnt := by omega
  have hnot : ¬ size_t_of_int plane ≥ bo.plane_cnt := by
    rw [hsz]; omega
  have hassert : bo.plane_cnt ≤ plane_aspects.length := by
    simpa [plane_aspects] using hcnt
  have hget := plane_aspects_get plane.toNat (by omega)
  have hoff : gbm_vulkan_bo_get_offset dev bo plane =
      (.ok ((dev.device.vkGetImageSubresourceLayout bo.image
              (memory_plane_aspect plane.toNat)).offset % 2 ^ 32),
        [Call.vkGetImageSubresourceLayout bo.image (memory_plane_aspect plane.toNat)]) := by
    unfold gbm_vulkan_bo_get_offset
    rw [if_neg hnot, if_neg (not_not.mpr hassert), hget]
    rfl
  have hstr : gbm_vulkan_bo_get_stride dev bo plane =
      (.ok ((dev.device.vkGetImageSubresourceLayout bo.image
              (memory_plane_aspect plane.toNat)).rowPitch % 2 ^ 32),
        [Call.vkGetImageSubresourceLayout bo.image (memory_plane_aspect plane.toNat)]) := by
    unfold gbm_vulkan_bo_get_stride
    rw [if_neg hnot, if_neg (not_not.mpr hassert), hget]
    rfl
  refine ⟨hoff, hstr, ?_, ?_⟩
  · intro hsmall
    rw [hoff, Nat.mod_eq_of_lt hsmall]
  · intro hsmall
    rw [hstr, Nat.mod_eq_of_lt hsmall]

/-- C16 amended, for plane 0 of a one-plane object on the example device: offset `0`
and row pitch `7680`. -/
theorem accessors_return_low_32_bits_of_layout_witness :
    (gbm_vulkan_bo_get_offset example_device
        { width := 1920, height := 1080, format := DRM_FORMAT_XRGB8888, image := 1, memory := 2,
          modifier := 0, plane_cnt := 1 } 0).1 = .ok 0
    ∧ (gbm_vulkan_bo_get_stride example_device
        { width := 1920, height := 1080, format := DRM_FORMAT_XRGB8888, image := 1, memory := 2,
          modifier := 0, plane_cnt := 1 } 0).1 = .ok 7680 :=
  ⟨(accessors_return_low_32_bits_of_layout example_device
      { width := 1920, height := 1080, format := DRM_FORMAT_XRGB8888, image := 1, memory := 2,
        modifier := 0, plane_cnt := 1 } 0 (by decide) (by decide) (by decide)).2.2.1 (by decide),
   (accessors_return_low_32_bits_of_layout example_device
      { width := 1920, height := 1080, format := DRM_FORMAT_XRGB8888, image := 1, memory := 2,
        modifier := 0, plane_cnt := 1 } 0 (by decide) (by decide) (by decide)).2.2.2 (by decide)⟩

/-! ## The second capability lookup -/

/-- A modifier of the filtered picklist is found by the lookup of its usage class. -/
theorem picklist_member_is_found (format_props : vulkan_format_props) (width height usage : Nat)
    (modifiers : List Nat) (m : Nat)
    (hmem : m ∈ (bo_create_img_create format_props width height usage
      modifiers).drmFormatModifiers) :
    ∃ mod_props, vulkan_format_props_find_modifier format_props m
        (usage &&& GBM_BO_USE_RENDERING != 0) = some mod_props
      ∧ mod_props.props.drmFormatModifier = m := by
  simp only [bo_create_img_create, bo_create_filter_loop_eq, List.nil_append,
    List.mem_filter] at hmem
  obtain ⟨_, hpred⟩ := hmem
  cases hfind : vulkan_format_props_find_modifier format_props m
      (usage &&& GBM_BO_USE_RENDERING != 0) with
  | none =>
    rw [hfind] at hpred
    cases hpred
  | some mod_props =>
    refine ⟨mod_props, rfl, ?_⟩
    unfold vulkan_format_props_find_modifier at hfind
    split at hfind
    · have := List.find?_some hfind
      simpa using this
    · have := List.find?_some hfind
      simpa using this

/-- C17: when every creation step of `gbm_vulkan_bo_create` succeeds and the modifier
the driver reports as committed is in the filtered picklist handed to image creation,
the second lookup, for that modifier under the same usage class, finds an entry, so the
assertion holds and the function returns the object, whose modifier is the modifier of
that entry and whose plane count is its plane count.  Without the membership there are
runs in which every step succeeds, the lookup finds nothing and the assertion fails. -/
theorem committed_modifier_lookup (format_canonicalize : Nat → Nat) :
    (∀ (vulkan : gbm_vulkan_device) (width height format usage : Nat) (modifiers : List Nat)
        (format_props : vulkan_format_props) (image memory committed : Nat),
        usage &&& GBM_BO_USE_WRITE = 0 → usage &&& GBM_BO_USE_PROTECTED = 0 →
        vulkan_format_props_from_drm vulkan (format_canonicalize format) = some format_props →
        vulkan.device.vkCreateImage
          (bo_create_img_create format_props width height usage modifiers) = some image →
        vulkan_find_mem_type vulkan.physical_device VK_MEMORY_PROPERTY_DEVICE_LOCAL_BIT
          (vulkan.device.vkGetImageMemoryRequirements image).memoryTypeBits ≠ -1 →
        vulkan.device.vkAllocateMemory (bo_create_mem_alloc vulkan image) = some memory →
        vulkan.device.vkBindImageMemory image memory 0 = true →
        vulkan.device.vkGetImageDrmFormatModifierPropertiesEXT image = some committed →
        committed ∈ (bo_create_img_create format_props width height usage
          modifiers).drmFormatModifiers →
        ∃ mod_props bo,
          vulkan_format_props_find_modifier format_props committed
            (usage &&& GBM_BO_USE_RENDERING != 0) = some mod_props
          ∧ (gbm_vulkan_bo_create format_canonicalize true vulkan width height format usage
              modifiers).1 = .ok (some bo)
          ∧ bo.modifier = mod_props.props.drmFormatModifier
          ∧ bo.modifier = committed
          ∧ bo.plane_cnt = mod_props.props.drmFormatModifierPlaneCount)
    ∧ ∃ (vulkan : gbm_vulkan_device) (width height format usage : Nat) (modifiers : List Nat)
        (format_props : vulkan_format_props) (image memory committed : Nat),
        usage &&& GBM_BO_USE_WRITE = 0 ∧ usage &&& GBM_BO_USE_PROTECTED = 0
        ∧ vulkan_format_props_from_drm vulkan (core_format_canonicalize format)
            = some format_props
        ∧ vulkan.device.vkCreateImage
            (bo_create_img_create format_props width height usage modifiers) = some image
        ∧ vulkan_find_mem_type vulkan.physical_device VK_MEMORY_PROPERTY_DEVICE_LOCAL_BIT
            (vulkan.device.vkGetImageMemoryRequirements image).memoryTypeBits ≠ -1
        ∧ vulkan.device.vkAllocateMemory (bo_create_mem_alloc vulkan image) = some memory
        ∧ vulkan.device.vkBindImageMemory image memory 0 = true
        ∧ vulkan.device.vkGetImageDrmFormatModifierPropertiesEXT image = some committed
        ∧ committed ∉ (bo_create_img_create format_props width height usage
            modifiers).drmFormatModifiers
        ∧ vulkan_format_props_find_modifier format_props committed
            (usage &&& GBM_BO_USE_RENDERING != 0) = none
        ∧ (gbm_vulkan_bo_create core_format_canonicalize true vulkan width height format usage
            modifiers).1 = .error Fault.assert_failed := by
  constructor
  · intro vulkan width height format usage modifiers format_props image memory committed
      hw hp hfmt hci hfind halloc hbind hquery hmem
    have husage := land_lor_eq_zero usage _ _ hp hw
    obtain ⟨mod_props, hlook, hmod⟩ :=
      picklist_member_is_found format_props width height usage modifiers committed hmem
    refine ⟨mod_props,
      { width := width, height := height, format := format_canonicalize format,
        image := image, memory := memory, modifier := committed,
        plane_cnt := mod_props.props.drmFormatModifierPlaneCount }, hlook, ?_, hmod.symm, rfl, rfl⟩
    rw [bo_create_run_steps_succeed format_canonicalize vulkan width height format usage
      modifiers format_props image memory committed husage hfmt hci hfind halloc hbind hquery,
      hlook]
  · exact ⟨example_device_commits_unknown, 1920, 1080, GBM_BO_FORMAT_XRGB8888,
      GBM_BO_USE_RENDERING, [0], example_format_props, 1, 2, 5,
      by decide, by decide, by decide, by decide, by decide, by decide, by decide, by decide,
      by decide, by decide, rfl⟩

/-- C17, on the example device: the candidates are `[0, 9]`, the driver commits
modifier 9, which is in the picklist, and the object gets modifier 9 with its 3 planes. -/
theorem committed_modifier_lookup_witness :
    (9 : Nat) ∈ (bo_create_img_create example_format_props 1920 1080 GBM_BO_USE_RENDERING
        [0, 9]).drmFormatModifiers
    ∧ ∃ mod_props bo,
        vulkan_format_props_find_modifier example_format_props 9
          (GBM_BO_USE_RENDERING &&& GBM_BO_USE_RENDERING != 0) = some mod_props
        ∧ (gbm_vulkan_bo_create core_format_canonicalize true example_device 1920 1080
            GBM_BO_FORMAT_XRGB8888 GBM_BO_USE_RENDERING [0, 9]).1 = .ok (some bo)
        ∧ bo.modifier = mod_props.props.drmFormatModifier
        ∧ bo.modifier = 9
        ∧ bo.plane_cnt = mod_props.props.drmFormatModifierPlaneCount :=
  ⟨by decide,
   (committed_modifier_lookup core_format_canonicalize).1 example_device 1920 1080
     GBM_BO_FORMAT_XRGB8888 GBM_BO_USE_RENDERING [0, 9] example_format_props 1 2 9
     (by decide) (by decide) (by decide) (by decide) (by decide) (by decide) (by decide)
     (by decide) (by decide)⟩

/-! ## The plane count of a buffer object and the reports of the device -/

theorem format_props_query_devices (callocs : query_callocs) (dev : gbm_vulkan_device)
    (phdev : VkPhysicalDevice) (format : vulkan_format) :
    (vulkan_format_props_query callocs dev phdev format).physical_device = dev.physical_device
    ∧ (vulkan_format_props_query callocs dev phdev format).device = dev.device := by
  unfold vulkan_format_props_query
  simp only []
  split
  · split <;> exact ⟨rfl, rfl⟩
  · exact ⟨rfl, rfl⟩

theorem device_create_loop_devices (callocs : Nat → query_callocs)
    (formats : List vulkan_format) (i : Nat) (vulkan : gbm_vulkan_device) :
    (vulkan_device_create_loop callocs formats i vulkan).physical_device = vulkan.physical_device
    ∧ (vulkan_device_create_loop callocs formats i vulkan).device = vulkan.device := by
  induction formats generalizing i vulkan with
  | nil => exact ⟨rfl, rfl⟩
  | cons format rest ih =>
    rw [vulkan_device_create_loop]
    have h := ih (i + 1)
      (vulkan_format_props_query (callocs i) vulkan vulkan.physical_device format)
    have hq := format_props_query_devices (callocs i) vulkan vulkan.physical_device format
    exact ⟨h.1.trans hq.1, h.2.trans hq.2⟩

/-- An entry that `vulkan_format_props_query` adds holds, in its two lists, what the two
halves of the loop give for the modifiers the device reports for the format. -/
theorem format_props_query_entries (callocs : query_callocs) (dev : gbm_vulkan_device)
    (phdev : VkPhysicalDevice) (format : vulkan_format)
    (hinv : ∀ e ∈ dev.format_props,
      e.render_mods = (phdev.drmFormatModifierProperties e.format.vk).filterMap
          (render_probe phdev e.format)
      ∧ e.texture_mods = (phdev.drmFormatModifierProperties e.format.vk).filterMap
          (texture_probe phdev e.format)) :
    ∀ e ∈ (vulkan_format_props_query callocs dev phdev format).format_props,
      e.render_mods = (phdev.drmFormatModifierProperties e.format.vk).filterMap
          (render_probe phdev e.format)
      ∧ e.texture_mods = (phdev.drmFormatModifierProperties e.format.vk).filterMap
          (texture_probe phdev e.format) := by
  intro e he
  unfold vulkan_format_props_query at he
  simp only [] at he
  split at he
  · split at he
    · rename_i hfound
      rcases List.mem_append.mp he with he | he
      · exact hinv e he
      · rw [List.mem_singleton.mp he]
        rcases query_modifier_support_cases phdev callocs format
            (phdev.drmFormatModifierProperties format.vk).length with hc | hc
        · rw [hc] at hfound
          cases hfound
        · rw [hc, query_modifier_support_loop_eq]
          simp
    · exact hinv e he
  · exact hinv e he

theorem device_create_loop_entries (callocs : Nat → query_callocs)
    (formats : List vulkan_format) (i : Nat) (vulkan : gbm_vulkan_device)
    (hinv : ∀ e ∈ vulkan.format_props,
      e.render_mods = (vulkan.physical_device.drmFormatModifierProperties e.format.vk).filterMap
          (render_probe vulkan.physical_device e.format)
      ∧ e.texture_mods = (vulkan.physical_device.drmFormatModifierProperties e.format.vk).filterMap
          (texture_probe vulkan.physical_device e.format)) :
    ∀ e ∈ (vulkan_device_create_loop callocs formats i vulkan).format_props,
      e.render_mods = (vulkan.physical_device.drmFormatModifierProperties e.format.vk).filterMap
          (render_probe vulkan.physical_device e.format)
      ∧ e.texture_mods = (vulkan.physical_device.drmFormatModifierProperties e.format.vk).filterMap
          (texture_probe vulkan.physical_device e.format) := by
  induction formats generalizing i vulkan with
  | nil => exact hinv
  | cons format rest ih =>
    rw [vulkan_device_create_loop]
    have hq := format_props_query_devices (callocs i) vulkan vulkan.physical_device format
    have hstep := format_props_query_entries (callocs i) vulkan vulkan.physical_device format hinv
    have h := ih (i + 1)
      (vulkan_format_props_query (callocs i) vulkan vulkan.physical_device format)
      (by rw [hq.1]; exact hstep)
    rw [hq.1] at h
    exact h

theorem render_probe_props_filter (phdev : VkPhysicalDevice) (format : vulkan_format)
    (mods : List VkDrmFormatModifierPropertiesEXT) :
    (mods.filterMap (render_probe phdev format)).map (fun p => p.props) =
      mods.filter (fun m =>
        decide (m.drmFormatModifierTilingFeatures &&& render_features = render_features)
          && modifier_usable phdev format vulkan_render_usage m) := by
  rw [map_props_filterMap _ (fun m p h => by
    unfold render_probe at h
    split at h
    · exact query_modifier_support_test_props _ _ _ _ _ h
    · cases h)]
  congr 1
  funext m
  rw [← query_modifier_support_test_isSome]
  unfold render_probe
  by_cases hg : m.drmFormatModifierTilingFeatures &&& render_features = render_features <;>
    simp [hg]

theorem texture_probe_props_filter (phdev : VkPhysicalDevice) (format : vulkan_format)
    (mods : List VkDrmFormatModifierPropertiesEXT) :
    (mods.filterMap (texture_probe phdev format)).map (fun p => p.props) =
      mods.filter (fun m =>
        decide (m.drmFormatModifierTilingFeatures &&& dma_tex_features = dma_tex_features)
          && modifier_usable phdev format vulkan_dma_tex_usage m) := by
  rw [map_props_filterMap _ (fun m p h => by
    unfold texture_probe at h
    split at h
    · exact query_modifier_support_test_props _ _ _ _ _ h
    · cases h)]
  congr 1
  funext m
  rw [← query_modifier_support_test_isSome]
  unfold texture_probe
  by_cases hg : m.drmFormatModifierTilingFeatures &&& dma_tex_features = dma_tex_features <;>
    simp [hg]

/-- The first entry of a list with a given modifier, seen through the `props` of the
entries. -/
theorem find_props_of_find (l : List vulkan_format_modifier_props) (mod : Nat)
    (p : vulkan_format_modifier_props)
    (h : l.find? (fun q => q.props.drmFormatModifier == mod) = some p) :
    (l.map (fun q => q.props)).find? (fun m => m.drmFormatModifier == mod) = some p.props := by
  rw [List.find?_map]
  have hcomp : ((fun m : VkDrmFormatModifierPropertiesEXT => m.drmFormatModifier == mod)
      ∘ fun q : vulkan_format_modifier_props => q.props)
      = fun q => q.props.drmFormatModifier == mod := rfl
  rw [hcomp, h]
  rfl

/-- C3: on a device context whose capability table the probing loop of
`vulkan_device_create` has built, over any formats and allocation outcomes, from the
physical device of the context, the `plane_cnt` of a buffer object that
`gbm_vulkan_bo_create` returns is the plane count that the device reports for the
committed modifier: the modifier of the object is the one the driver reports for the
created image; the entry read is the first of the list of the usage class with that
modifier; its properties are the record the device reports for the native format of the
format code, the first with that modifier among those that pass the feature guard and
are usable under the usage class; and when the device reports each modifier once, it is
the only reported record of that modifier.  The candidates do not enter into it. -/
theorem bo_create_plane_cnt_of_committed_modifier (format_canonicalize : Nat → Nat)
    (calloc_ok : Bool) (callocs : Nat → query_callocs) (formats : List vulkan_format)
    (physical_device : VkPhysicalDevice) (device : VkDevice)
    (width height format usage : Nat) (modifiers : List Nat) (bo : gbm_vulkan_bo)
    (trace : List Call)
    (hok : gbm_vulkan_bo_create format_canonicalize calloc_ok
      (vulkan_device_create_loop callocs formats 0
        { physical_device := physical_device, device := device, format_props := [] })
      width height format usage modifiers = (.ok (some bo), trace)) :
    ∃ format_props committed mod_props,
      (vulkan_device_create_loop callocs formats 0
        { physical_device := physical_device, device := device,
          format_props := [] }).format_props.find?
          (fun e => e.format.drm == format_canonicalize format) = some format_props
      ∧ device.vkGetImageDrmFormatModifierPropertiesEXT bo.image = some committed
      ∧ bo.modifier = committed
      ∧ (if usage.testBit 2 then format_props.render_mods
          else format_props.texture_mods).find?
            (fun p => p.props.drmFormatModifier == committed) = some mod_props
      ∧ mod_props.props.drmFormatModifier = committed
      ∧ bo.plane_cnt = mod_props.props.drmFormatModifierPlaneCount
      ∧ ((physical_device.drmFormatModifierProperties format_props.format.vk).filter
            (fun m =>
              if usage.testBit 2 then
                decide (m.drmFormatModifierTilingFeatures &&& render_features = render_features)
                  && modifier_usable physical_device format_props.format vulkan_render_usage m
              else
                decide (m.drmFormatModifierTilingFeatures &&& dma_tex_features
                    = dma_tex_features)
                  && modifier_usable physical_device format_props.format
                      vulkan_dma_tex_usage m)).find?
            (fun m => m.drmFormatModifier == committed) = some mod_props.props
      ∧ mod_props.props ∈ physical_device.drmFormatModifierProperties format_props.format.vk
      ∧ ((∀ a ∈ physical_device.drmFormatModifierProperties format_props.format.vk,
            ∀ b ∈ physical_device.drmFormatModifierProperties format_props.format.vk,
              a.drmFormatModifier = b.drmFormatModifier → a = b) →
          ∀ m ∈ physical_device.drmFormatModifierProperties format_props.format.vk,
            m.drmFormatModifier = committed →
              bo.plane_cnt = m.drmFormatModifierPlaneCount) := by
  have hdev := device_create_loop_devices callocs formats 0
    { physical_device := physical_device, device := device, format_props := [] }
  simp only [] at hdev
  obtain ⟨format_props, committed, mod_props, hfmt, hcommitted, hlook, hmodifier, hplanes⟩ :=
    bo_create_returns_looked_up_entry format_canonicalize calloc_ok _ width height format usage
      modifiers bo trace hok
  rw [hdev.2] at hcommitted
  unfold vulkan_format_props_from_drm at hfmt
  have hentry := device_create_loop_entries callocs formats 0
    { physical_device := physical_device, device := device, format_props := [] }
    (by intro e he; cases he) format_props (List.mem_of_find?_eq_some hfmt)
  simp only [] at hentry
  have hlist : (if usage.testBit 2 then format_props.render_mods
      else format_props.texture_mods).find?
        (fun p => p.props.drmFormatModifier == committed) = some mod_props := by
    unfold vulkan_format_props_find_modifier at hlook
    rw [rendering_flag_eq_testBit] at hlook
    cases hbit : usage.testBit 2
    · rw [hbit] at hlook
      simpa using hlook
    · rw [hbit] at hlook
      simpa using hlook
  have hid : mod_props.props.drmFormatModifier = committed := by
    have := List.find?_some hlist
    simpa using this
  have hreported : ((physical_device.drmFormatModifierProperties format_props.format.vk).filter
      (fun m =>
        if usage.testBit 2 then
          decide (m.drmFormatModifierTilingFeatures &&& render_features = render_features)
            && modifier_usable physical_device format_props.format vulkan_render_usage m
        else
          decide (m.drmFormatModifierTilingFeatures &&& dma_tex_features = dma_tex_features)
            && modifier_usable physical_device format_props.format
                vulkan_dma_tex_usage m)).find?
      (fun m => m.drmFormatModifier == committed) = some mod_props.props := by
    have hfound := find_props_of_find _ committed mod_props hlist
    cases hbit : usage.testBit 2
    · rw [hbit] at hfound
      simp only [Bool.false_eq_true, if_false] at hfound ⊢
      rw [hentry.2, texture_probe_props_filter] at hfound
      exact hfound
    · rw [hbit] at hfound
      simp only [if_true] at hfound ⊢
      rw [hentry.1, render_probe_props_filter] at hfound
      exact hfound
  have hmem : mod_props.props
      ∈ physical_device.drmFormatModifierProperties format_props.format.vk :=
    (List.mem_filter.mp (List.mem_of_find?_eq_some hreported)).1
  refine ⟨format_props, committed, mod_props, hfmt, hcommitted, hmodifier, hlist, hid, hplanes,
    hreported, hmem, ?_⟩
  intro hunique m hm hmid
  have heq : m = mod_props.props := hunique m hm mod_props.props hmem (hmid.trans hid.symm)
  rw [hplanes, heq]

/-- C3, on a context built by probing the probing example: for a texture buffer the
only candidate is the linear modifier (1 plane), the driver commits modifier 9, and the
object gets the 3 planes that the device reports for modifier 9. -/
theorem bo_create_plane_cnt_of_committed_modifier_witness :
    ∃ bo trace,
      gbm_vulkan_bo_create core_format_canonicalize true
        (vulkan_device_create_loop (fun _ => callocs_succeed) [example_format] 0
          { physical_device := example_probing_device, device := example_logical_device,
            format_props := [] })
        1920 1080 GBM_BO_FORMAT_XRGB8888 0 [0] = (.ok (some bo), trace)
      ∧ bo.modifier = 9 ∧ bo.plane_cnt = 3
      ∧ ({ drmFormatModifier := 9, drmFormatModifierPlaneCount := 3,
           drmFormatModifierTilingFeatures := 0x81 } : VkDrmFormatModifierPropertiesEXT)
          ∈ example_probing_device.drmFormatModifierProperties VK_FORMAT_B8G8R8A8_UNORM
      ∧ ∃ format_props committed mod_props,
          (vulkan_device_create_loop (fun _ => callocs_succeed) [example_format] 0
            { physical_device := example_probing_device, device := example_logical_device,
              format_props := [] }).format_props.find?
              (fun e => e.format.drm == core_format_canonicalize GBM_BO_FORMAT_XRGB8888)
            = some format_props
          ∧ example_logical_device.vkGetImageDrmFormatModifierPropertiesEXT bo.image
              = some committed
          ∧ bo.modifier = committed
          ∧ (if Nat.testBit 0 2 then format_props.render_mods
              else format_props.texture_mods).find?
                (fun p => p.props.drmFormatModifier == committed) = some mod_props
          ∧ mod_props.props.drmFormatModifier = committed
          ∧ bo.plane_cnt = mod_props.props.drmFormatModifierPlaneCount
          ∧ ((example_probing_device.drmFormatModifierProperties format_props.format.vk).filter
                (fun m =>
                  if Nat.testBit 0 2 then
                    decide (m.drmFormatModifierTilingFeatures &&& render_features
                        = render_features)
                      && modifier_usable example_probing_device format_props.format
                          vulkan_render_usage m
                  else
                    decide (m.drmFormatModifierTilingFeatures &&& dma_tex_features
                        = dma_tex_features)
                      && modifier_usable example_probing_device format_props.format
                          vulkan_dma_tex_usage m)).find?
                (fun m => m.drmFormatModifier == committed) = some mod_props.props
          ∧ mod_props.props
              ∈ example_probing_device.drmFormatModifierProperties format_props.format.vk
          ∧ ((∀ a ∈ example_probing_device.drmFormatModifierProperties format_props.format.vk,
                ∀ b ∈ example_probing_device.drmFormatModifierProperties format_props.format.vk,
                  a.drmFormatModifier = b.drmFormatModifier → a = b) →
              ∀ m ∈ example_probing_device.drmFormatModifierProperties format_props.format.vk,
                m.drmFormatModifier = committed →
                  bo.plane_cnt = m.drmFormatModifierPlaneCount) := by
  refine ⟨_, _, rfl, rfl, rfl, by decide, ?_⟩
  exact bo_create_plane_cnt_of_committed_modifier core_format_canonicalize true
    (fun _ => callocs_succeed) [example_format] example_probing_device example_logical_device
    1920 1080 GBM_BO_FORMAT_XRGB8888 0 [0] _ _ rfl

end GbmVulkan
